import Mathlib

/-!
Verification development for the miyakebabs-alloutlets-webhook service
(`src/models.py`, `src/db.py`, `src/main.py`).

The Python source is shallowly embedded: pydantic models become Lean
structures together with explicit parse functions from a JSON value type,
the PostgreSQL tables become lists of row structures inside a `DBState`,
and the `insert_data` transaction becomes a sequence of state-transforming
upsert operations run under a failure oracle (`oracle k = true` means the
k-th `cur.execute` raises an unexpected database error), with the
`get_connection` context manager's commit/rollback made explicit.

Python floats are modelled as rationals (`ℚ`), Python ints as `Int`, and
Python strings as Lean `String`s.  Pydantic coercion follows pydantic v1
semantics (the style of `class Config: extra = "ignore"` used by the
source): union members are tried in declaration order, with numeric/string
cross-coercion.
-/

namespace Webhook

/-- A dynamically typed Python value, as received by the casting helpers
`as_int` / `as_float` of `src/db.py` (the payload fields that reach them
are `None`, `str`, `int` or `float`). -/
inductive PyVal where
  | none
  | str (s : String)
  | int (n : Int)
  | float (q : ℚ)
deriving DecidableEq

/-- Value of a string of decimal digits, `Option.none` when the character
list is empty or contains a non-digit.  Models the success cases of
Python `int()` on an unsigned literal (whitespace/underscore forms are
not modelled; no payload field in the claims uses them). -/
def digitsToNat : List Char → Option Nat
  | [] => Option.none
  | cs => if cs.all (·.isDigit)
      then Option.some (cs.foldl (fun a c => a * 10 + (c.toNat - 48)) 0)
      else Option.none

/-- Python `int(s)` on a string: optional sign followed by decimal digits;
any other form raises `ValueError`, modelled as `Option.none`. -/
def pyIntOfString (s : String) : Option Int :=
  match s.data with
  | '-' :: cs => (digitsToNat cs).map (fun n => -(n : Int))
  | '+' :: cs => (digitsToNat cs).map (fun n => (n : Int))
  | cs => (digitsToNat cs).map (fun n => (n : Int))

/-- Value of `ip.fp` as a rational, where `ip` and `fp` are the integer and
fractional digit runs; `Option.none` when the shape is not a Python float
literal.  Helper for `pyFloatOfString`. -/
def pyFloatOfChars (cs : List Char) : Option ℚ :=
  let ip := cs.takeWhile (·.isDigit)
  let rest := cs.dropWhile (·.isDigit)
  match rest with
  | [] => (digitsToNat ip).map (fun n => (n : ℚ))
  | '.' :: fp =>
      if fp.all (·.isDigit) && (ip ≠ [] || fp ≠ []) then
        let i : ℚ := ((ip.foldl (fun a c => a * 10 + (c.toNat - 48)) 0 : Nat) : ℚ)
        let f : ℚ := ((fp.foldl (fun a c => a * 10 + (c.toNat - 48)) 0 : Nat) : ℚ)
        Option.some (i + f / ((10 : ℚ) ^ fp.length))
      else Option.none
  | _ => Option.none

/-- Python `float(s)` on a string: optional sign, then digits with an
optional fractional part (`"12"`, `"12.5"`, `".5"`, `"12."`).  Exponent,
`inf` and `nan` forms are not modelled (no claim exercises them); all
other strings raise `ValueError`, modelled as `Option.none`. -/
def pyFloatOfString (s : String) : Option ℚ :=
  match s.data with
  | '-' :: cs => (pyFloatOfChars cs).map (fun q => -q)
  | '+' :: cs => pyFloatOfChars cs
  | cs => pyFloatOfChars cs

/-- Decimal digits of the fractional part `r/b` (up to a bounded number of
digits; Python floats always terminate well within the bound). -/
def fracDigits : Nat → Nat → Nat → String
  | _, _, 0 => ""
  | r, b, k + 1 =>
      if r = 0 then ""
      else toString ((r * 10) / b) ++ fracDigits ((r * 10) % b) b k

/-- Python `str()` applied to a float value, modelled on rationals: the
terminating decimal expansion (binary floats always terminate; a
non-terminating rational is truncated at 40 digits). -/
def pyFloatStr (q : ℚ) : String :=
  if q.den = 1 then toString q.num ++ ".0"
  else
    let sgn := if q < 0 then "-" else ""
    let a := q.num.natAbs
    let b := q.den
    sgn ++ toString (a / b) ++ "." ++ fracDigits (a % b) b 40

/-- Python `int()` applied to a float: truncation toward zero. -/
def pyTrunc (q : ℚ) : Int :=
  if q < 0 then -(Rat.floor (-q)) else Rat.floor q

/-- The helper `as_int` of `src/db.py`: `None`/empty-string inputs give
`None`; an `int` passes through; any other value goes through
`int(str(value))`, returning `None` on failure.  For a `float` input,
`str(value)` always contains a decimal point or exponent, so
`int(str(value))` raises and the result is `None`. -/
def as_int : PyVal → Option Int
  | .none => Option.none
  | .str s => if s = "" then Option.none else pyIntOfString s
  | .int n => Option.some n
  | .float _ => Option.none

/-- The helper `as_float` of `src/db.py`: `None`/empty-string inputs give
`None`; `int` and `float` inputs pass through as floats; any other value
goes through `float(str(value))`, returning `None` on failure. -/
def as_float : PyVal → Option ℚ
  | .none => Option.none
  | .str s => if s = "" then Option.none else pyFloatOfString s
  | .int n => Option.some ((n : ℚ))
  | .float q => Option.some q

/-- The spec's notion of an "already numeric" input to the coercion
helpers: a Python `int` or `float`. -/
def isNumericPy : PyVal → Bool
  | .int _ => true
  | .float _ => true
  | _ => false

example : as_int (.str "42") = Option.some 42 := by decide
example : as_int (.str "-7") = Option.some (-7) := by decide
example : as_int (.str "N/A") = Option.none := by decide
example : (as_float (.str "2.5")).isSome = true := by decide
example : (as_float (.str "12")).isSome = true := by decide
example : (as_float (.str ".")).isSome = false := by decide
example : as_float (.str "N/A") = Option.none := by decide
example : as_float (.int 3) = Option.some 3 := by decide
example : as_int (.float (5 / 2)) = Option.none := by decide

/-- A value of the pydantic type `Union[int, str]` (fields `orderID`,
`no_of_persons`, `itemid`, `quantity`). -/
inductive UIntStr where
  | i (n : Int)
  | s (v : String)
deriving DecidableEq

/-- A value of the pydantic type `Union[int, float]` (the monetary
fields). -/
inductive UNum where
  | i (n : Int)
  | f (q : ℚ)
deriving DecidableEq

/-- A value of the pydantic type `Union[str, int]` (fields `table_no`,
`order_from_id`). -/
inductive UStrInt where
  | s (v : String)
  | i (n : Int)
deriving DecidableEq

/-- A value of the pydantic type `Union[str, float, int]` (field
`round_off`). -/
inductive USFI where
  | s (v : String)
  | f (q : ℚ)
  | i (n : Int)
deriving DecidableEq

/-- A parsed `datetime` value (pydantic v1 accepts ISO-format strings and
unix-timestamp numbers); the payload token is kept verbatim. -/
inductive PyDateTime where
  | iso (s : String)
  | unix (n : Int)
deriving DecidableEq

/-- The dynamic Python value carried by an `Optional[Union[int, str]]`
field (what `as_int` / `as_float` receive for it). -/
def pyOfUIS : Option UIntStr → PyVal
  | Option.none => .none
  | Option.some (.i n) => .int n
  | Option.some (.s v) => .str v

/-- The dynamic Python value carried by an `Optional[Union[int, float]]`
field. -/
def pyOfUNum : Option UNum → PyVal
  | Option.none => .none
  | Option.some (.i n) => .int n
  | Option.some (.f q) => .float q

/-- The `Restaurant` model of `src/models.py`: all fields optional,
defaulting to `None`, unknown fields ignored. -/
structure Restaurant where
  res_name : Option String := Option.none
  address : Option String := Option.none
  contact_information : Option String := Option.none
  restID : Option String := Option.none
deriving DecidableEq

/-- The `Customer` model of `src/models.py`. -/
structure Customer where
  name : Option String := Option.none
  address : Option String := Option.none
  phone : Option String := Option.none
  gstin : Option String := Option.none
deriving DecidableEq

/-- The `PartPayment` model of `src/models.py`. -/
structure PartPayment where
  payment_type : Option String := Option.none
  amount : Option UNum := Option.none
  custome_payment_type : Option String := Option.none
deriving DecidableEq

/-- The `Order` model of `src/models.py`. -/
structure Order where
  orderID : Option UIntStr := Option.none
  customer_invoice_id : Option String := Option.none
  delivery_charges : Option UNum := Option.none
  order_type : Option String := Option.none
  payment_type : Option String := Option.none
  table_no : Option UStrInt := Option.none
  no_of_persons : Option UIntStr := Option.none
  discount_total : Option UNum := Option.none
  tax_total : Option UNum := Option.none
  round_off : Option USFI := Option.none
  core_total : Option UNum := Option.none
  total : Option UNum := Option.none
  created_on : Option PyDateTime := Option.none
  order_from : Option String := Option.none
  order_from_id : Option UStrInt := Option.none
  sub_order_type : Option String := Option.none
  packaging_charge : Option UNum := Option.none
  status : Option String := Option.none
  comment : Option String := Option.none
  service_charge : Option UNum := Option.none
  biller : Option String := Option.none
  assignee : Option String := Option.none
  part_payments : List PartPayment := []
deriving DecidableEq

/-- The `Addon` model of `src/models.py`. -/
structure Addon where
  group_name : Option String := Option.none
  name : Option String := Option.none
  price : Option UNum := Option.none
  quantity : Option UIntStr := Option.none
  sap_code : Option String := Option.none
  addon_id : Option String := Option.none
  addon_group_id : Option String := Option.none
deriving DecidableEq

/-- The `OrderItem` model of `src/models.py`. -/
structure OrderItem where
  name : Option String := Option.none
  itemid : Option UIntStr := Option.none
  itemcode : Option String := Option.none
  vendoritemcode : Option String := Option.none
  specialnotes : Option String := Option.none
  price : Option UNum := Option.none
  quantity : Option UIntStr := Option.none
  total : Option UNum := Option.none
  addon : List Addon := []
  category_name : Option String := Option.none
  sap_code : Option String := Option.none
  discount : Option UNum := Option.none
  tax : Option UNum := Option.none
deriving DecidableEq

/-- The `Tax` model of `src/models.py`. -/
structure Tax where
  title : Option String := Option.none
  rate : Option UNum := Option.none
  amount : Option UNum := Option.none
deriving DecidableEq

/-- The `Discount` model of `src/models.py`. -/
structure Discount where
  title : Option String := Option.none
  type : Option String := Option.none
  rate : Option UNum := Option.none
  amount : Option UNum := Option.none
deriving DecidableEq

/-- The `Properties` model of `src/models.py`: the three section models are
optional (defaulting to `None`); the three list fields default to the
empty list via `Field(default_factory=list)`. -/
structure Properties where
  Restaurant : Option Restaurant := Option.none
  Customer : Option Customer := Option.none
  Order : Option Order := Option.none
  Tax : List Tax := []
  Discount : List Discount := []
  OrderItem : List OrderItem := []
deriving DecidableEq

/-- The `WebhookPayload` model of `src/models.py`: every field optional,
unknown fields ignored. -/
structure WebhookPayload where
  token : Option String := Option.none
  properties : Option Properties := Option.none
  event : Option String := Option.none
deriving DecidableEq

/-- A JSON-like Python value as produced by `request.json()` and handed to
`WebhookPayload(**raw_payload)` (booleans are not modelled; no field of
the schema is boolean). -/
inductive Json where
  | null
  | int (n : Int)
  | float (q : ℚ)
  | str (s : String)
  | arr (xs : List Json)
  | obj (kvs : List (String × Json))

/-- Dictionary lookup on the key/value list of a JSON object. -/
def jlookup (kvs : List (String × Json)) (k : String) : Option Json :=
  (kvs.find? (fun kv => kv.1 == k)).map (fun kv => kv.2)

/-- Pydantic v1 validation of an `Optional[str]` field: absent or `null`
gives `None`; strings pass through; ints and floats are coerced with
`str()`; containers are a validation error naming the field. -/
def parseOptStrField (path : String) : Option Json → Except String (Option String)
  | Option.none => .ok Option.none
  | Option.some .null => .ok Option.none
  | Option.some (.str s) => .ok (Option.some s)
  | Option.some (.int n) => .ok (Option.some (toString n))
  | Option.some (.float q) => .ok (Option.some (pyFloatStr q))
  | Option.some _ => .error path

/-- Pydantic v1 validation of an `Optional[Union[int, str]]` field: the
`int` member is tried first (`int()` truncates floats and parses integer
strings), then `str`. -/
def parseOptIntStrField (path : String) : Option Json → Except String (Option UIntStr)
  | Option.none => .ok Option.none
  | Option.some .null => .ok Option.none
  | Option.some (.int n) => .ok (Option.some (.i n))
  | Option.some (.float q) => .ok (Option.some (.i (pyTrunc q)))
  | Option.some (.str s) =>
      match pyIntOfString s with
      | Option.some n => .ok (Option.some (.i n))
      | Option.none => .ok (Option.some (.s s))
  | Option.some _ => .error path

/-- Pydantic v1 validation of an `Optional[Union[int, float]]` field: the
`int` member is tried first (so a float input is truncated by `int()` and
an integer string parses as int); a non-numeric string fails both members
and is a validation error naming the field. -/
def parseOptNumField (path : String) : Option Json → Except String (Option UNum)
  | Option.none => .ok Option.none
  | Option.some .null => .ok Option.none
  | Option.some (.int n) => .ok (Option.some (.i n))
  | Option.some (.float q) => .ok (Option.some (.i (pyTrunc q)))
  | Option.some (.str s) =>
      match pyIntOfString s with
      | Option.some n => .ok (Option.some (.i n))
      | Option.none =>
          match pyFloatOfString s with
          | Option.some q => .ok (Option.some (.f q))
          | Option.none => .error path
  | Option.some _ => .error path

/-- Pydantic v1 validation of an `Optional[Union[str, int]]` field: the
`str` member is tried first and coerces every scalar, so the parsed value
is always textual. -/
def parseOptStrIntField (path : String) : Option Json → Except String (Option UStrInt)
  | Option.none => .ok Option.none
  | Option.some .null => .ok Option.none
  | Option.some (.str s) => .ok (Option.some (.s s))
  | Option.some (.int n) => .ok (Option.some (.s (toString n)))
  | Option.some (.float q) => .ok (Option.some (.s (pyFloatStr q)))
  | Option.some _ => .error path

/-- Pydantic v1 validation of an `Optional[Union[str, float, int]]` field
(`round_off`): the `str` member is tried first and coerces every
scalar. -/
def parseOptSFIField (path : String) : Option Json → Except String (Option USFI)
  | Option.none => .ok Option.none
  | Option.some .null => .ok Option.none
  | Option.some (.str s) => .ok (Option.some (.s s))
  | Option.some (.int n) => .ok (Option.some (.s (toString n)))
  | Option.some (.float q) => .ok (Option.some (.s (pyFloatStr q)))
  | Option.some _ => .error path

/-- Shape check for an ISO-like date string `YYYY-MM-DD...` (pydantic v1
additionally validates the calendar ranges; the claims never exercise
that). -/
def isoLike (s : String) : Bool :=
  match s.data with
  | y1 :: y2 :: y3 :: y4 :: '-' :: m1 :: m2 :: '-' :: d1 :: d2 :: _ =>
      y1.isDigit && y2.isDigit && y3.isDigit && y4.isDigit &&
      m1.isDigit && m2.isDigit && d1.isDigit && d2.isDigit
  | _ => false

/-- Pydantic v1 validation of an `Optional[datetime]` field: ints, floats
and integer strings are unix timestamps; other strings must look like an
ISO datetime. -/
def parseOptDatetimeField (path : String) : Option Json → Except String (Option PyDateTime)
  | Option.none => .ok Option.none
  | Option.some .null => .ok Option.none
  | Option.some (.int n) => .ok (Option.some (.unix n))
  | Option.some (.float q) => .ok (Option.some (.unix (pyTrunc q)))
  | Option.some (.str s) =>
      match pyIntOfString s with
      | Option.some n => .ok (Option.some (.unix n))
      | Option.none => if isoLike s then .ok (Option.some (.iso s)) else .error path
  | Option.some _ => .error path

/-- Pydantic v1 validation of an `Optional[Model]` field: absent or `null`
gives `None`; a mapping is parsed by the nested model; anything else is a
validation error naming the field. -/
def parseOptObj {α : Type} (path : String)
    (elemParse : String → List (String × Json) → Except String α) :
    Option Json → Except String (Option α)
  | Option.none => .ok Option.none
  | Option.some .null => .ok Option.none
  | Option.some (.obj kvs) => (elemParse path kvs).map Option.some
  | Option.some _ => .error path

/-- Pydantic v1 validation of a `List[Model] = Field(default_factory=list)`
field: absent gives the empty list; a JSON array is parsed elementwise
(every element must be a mapping); `null` or a non-array is a validation
error naming the field. -/
def parseObjList {α : Type} (path : String)
    (elemParse : String → List (String × Json) → Except String α) :
    Option Json → Except String (List α)
  | Option.none => .ok []
  | Option.some (.arr xs) =>
      xs.mapM (fun j =>
        match j with
        | .obj kvs => elemParse path kvs
        | _ => .error path)
  | Option.some _ => .error path

/-- Construction of `Restaurant(**·)`: field-by-field pydantic validation
in declaration order; the error names the first invalid field. -/
def parseRestaurant (path : String) (kvs : List (String × Json)) : Except String Restaurant := do
  let res_name ← parseOptStrField (path ++ ".res_name") (jlookup kvs "res_name")
  let address ← parseOptStrField (path ++ ".address") (jlookup kvs "address")
  let contact_information ←
    parseOptStrField (path ++ ".contact_information") (jlookup kvs "contact_information")
  let restID ← parseOptStrField (path ++ ".restID") (jlookup kvs "restID")
  return ⟨res_name, address, contact_information, restID⟩

/-- Construction of `Customer(**·)`. -/
def parseCustomer (path : String) (kvs : List (String × Json)) : Except String Customer := do
  let name ← parseOptStrField (path ++ ".name") (jlookup kvs "name")
  let address ← parseOptStrField (path ++ ".address") (jlookup kvs "address")
  let phone ← parseOptStrField (path ++ ".phone") (jlookup kvs "phone")
  let gstin ← parseOptStrField (path ++ ".gstin") (jlookup kvs "gstin")
  return ⟨name, address, phone, gstin⟩

/-- Construction of `PartPayment(**·)`. -/
def parsePartPayment (path : String) (kvs : List (String × Json)) : Except String PartPayment := do
  let payment_type ← parseOptStrField (path ++ ".payment_type") (jlookup kvs "payment_type")
  let amount ← parseOptNumField (path ++ ".amount") (jlookup kvs "amount")
  let custome_payment_type ←
    parseOptStrField (path ++ ".custome_payment_type") (jlookup kvs "custome_payment_type")
  return ⟨payment_type, amount, custome_payment_type⟩

/-- Construction of `Order(**·)`: note that `total` (like the other
monetary fields) is typed `Optional[Union[int, float]]`, so a non-numeric
string for it is a validation error, not a tolerated value. -/
def parseOrder (path : String) (kvs : List (String × Json)) : Except String Order := do
  let orderID ← parseOptIntStrField (path ++ ".orderID") (jlookup kvs "orderID")
  let customer_invoice_id ←
    parseOptStrField (path ++ ".customer_invoice_id") (jlookup kvs "customer_invoice_id")
  let delivery_charges ← parseOptNumField (path ++ ".delivery_charges") (jlookup kvs "delivery_charges")
  let order_type ← parseOptStrField (path ++ ".order_type") (jlookup kvs "order_type")
  let payment_type ← parseOptStrField (path ++ ".payment_type") (jlookup kvs "payment_type")
  let table_no ← parseOptStrIntField (path ++ ".table_no") (jlookup kvs "table_no")
  let no_of_persons ← parseOptIntStrField (path ++ ".no_of_persons") (jlookup kvs "no_of_persons")
  let discount_total ← parseOptNumField (path ++ ".discount_total") (jlookup kvs "discount_total")
  let tax_total ← parseOptNumField (path ++ ".tax_total") (jlookup kvs "tax_total")
  let round_off ← parseOptSFIField (path ++ ".round_off") (jlookup kvs "round_off")
  let core_total ← parseOptNumField (path ++ ".core_total") (jlookup kvs "core_total")
  let total ← parseOptNumField (path ++ ".total") (jlookup kvs "total")
  let created_on ← parseOptDatetimeField (path ++ ".created_on") (jlookup kvs "created_on")
  let order_from ← parseOptStrField (path ++ ".order_from") (jlookup kvs "order_from")
  let order_from_id ← parseOptStrIntField (path ++ ".order_from_id") (jlookup kvs "order_from_id")
  let sub_order_type ← parseOptStrField (path ++ ".sub_order_type") (jlookup kvs "sub_order_type")
  let packaging_charge ← parseOptNumField (path ++ ".packaging_charge") (jlookup kvs "packaging_charge")
  let status ← parseOptStrField (path ++ ".status") (jlookup kvs "status")
  let comment ← parseOptStrField (path ++ ".comment") (jlookup kvs "comment")
  let service_charge ← parseOptNumField (path ++ ".service_charge") (jlookup kvs "service_charge")
  let biller ← parseOptStrField (path ++ ".biller") (jlookup kvs "biller")
  let assignee ← parseOptStrField (path ++ ".assignee") (jlookup kvs "assignee")
  let part_payments ← parseObjList (path ++ ".part_payments") parsePartPayment (jlookup kvs "part_payments")
  return ⟨orderID, customer_invoice_id, delivery_charges, order_type, payment_type, table_no,
    no_of_persons, discount_total, tax_total, round_off, core_total, total, created_on,
    order_from, order_from_id, sub_order_type, packaging_charge, status, comment,
    service_charge, biller, assignee, part_payments⟩

/-- Construction of `Addon(**·)`. -/
def parseAddon (path : String) (kvs : List (String × Json)) : Except String Addon := do
  let group_name ← parseOptStrField (path ++ ".group_name") (jlookup kvs "group_name")
  let name ← parseOptStrField (path ++ ".name") (jlookup kvs "name")
  let price ← parseOptNumField (path ++ ".price") (jlookup kvs "price")
  let quantity ← parseOptIntStrField (path ++ ".quantity") (jlookup kvs "quantity")
  let sap_code ← parseOptStrField (path ++ ".sap_code") (jlookup kvs "sap_code")
  let addon_id ← parseOptStrField (path ++ ".addon_id") (jlookup kvs "addon_id")
  let addon_group_id ← parseOptStrField (path ++ ".addon_group_id") (jlookup kvs "addon_group_id")
  return ⟨group_name, name, price, quantity, sap_code, addon_id, addon_group_id⟩

/-- Construction of `OrderItem(**·)`. -/
def parseOrderItem (path : String) (kvs : List (String × Json)) : Except String OrderItem := do
  let name ← parseOptStrField (path ++ ".name") (jlookup kvs "name")
  let itemid ← parseOptIntStrField (path ++ ".itemid") (jlookup kvs "itemid")
  let itemcode ← parseOptStrField (path ++ ".itemcode") (jlookup kvs "itemcode")
  let vendoritemcode ← parseOptStrField (path ++ ".vendoritemcode") (jlookup kvs "vendoritemcode")
  let specialnotes ← parseOptStrField (path ++ ".specialnotes") (jlookup kvs "specialnotes")
  let price ← parseOptNumField (path ++ ".price") (jlookup kvs "price")
  let quantity ← parseOptIntStrField (path ++ ".quantity") (jlookup kvs "quantity")
  let total ← parseOptNumField (path ++ ".total") (jlookup kvs "total")
  let addon ← parseObjList (path ++ ".addon") parseAddon (jlookup kvs "addon")
  let category_name ← parseOptStrField (path ++ ".category_name") (jlookup kvs "category_name")
  let sap_code ← parseOptStrField (path ++ ".sap_code") (jlookup kvs "sap_code")
  let discount ← parseOptNumField (path ++ ".discount") (jlookup kvs "discount")
  let tax ← parseOptNumField (path ++ ".tax") (jlookup kvs "tax")
  return ⟨name, itemid, itemcode, vendoritemcode, specialnotes, price, quantity, total,
    addon, category_name, sap_code, discount, tax⟩

/-- Construction of `Tax(**·)`. -/
def parseTax (path : String) (kvs : List (String × Json)) : Except String Tax := do
  let title ← parseOptStrField (path ++ ".title") (jlookup kvs "title")
  let rate ← parseOptNumField (path ++ ".rate") (jlookup kvs "rate")
  let amount ← parseOptNumField (path ++ ".amount") (jlookup kvs "amount")
  return ⟨title, rate, amount⟩

/-- Construction of `Discount(**·)`. -/
def parseDiscount (path : String) (kvs : List (String × Json)) : Except String Discount := do
  let title ← parseOptStrField (path ++ ".title") (jlookup kvs "title")
  let type ← parseOptStrField (path ++ ".type") (jlookup kvs "type")
  let rate ← parseOptNumField (path ++ ".rate") (jlookup kvs "rate")
  let amount ← parseOptNumField (path ++ ".amount") (jlookup kvs "amount")
  return ⟨title, type, rate, amount⟩

/-- Construction of `Properties(**·)`: the `Restaurant`, `Customer` and
`Order` sections are `Optional` models defaulting to `None`; `Tax`,
`Discount` and `OrderItem` default to empty lists. -/
def parseProperties (path : String) (kvs : List (String × Json)) : Except String Properties := do
  let r ← parseOptObj (path ++ ".Restaurant") parseRestaurant (jlookup kvs "Restaurant")
  let c ← parseOptObj (path ++ ".Customer") parseCustomer (jlookup kvs "Customer")
  let o ← parseOptObj (path ++ ".Order") parseOrder (jlookup kvs "Order")
  let t ← parseObjList (path ++ ".Tax") parseTax (jlookup kvs "Tax")
  let d ← parseObjList (path ++ ".Discount") parseDiscount (jlookup kvs "Discount")
  let oi ← parseObjList (path ++ ".OrderItem") parseOrderItem (jlookup kvs "OrderItem")
  return ⟨r, c, o, t, d, oi⟩

/-- Construction of `WebhookPayload(**raw_payload)` in the worker of
`src/main.py`: every field is optional with default `None`, so a missing
`properties` (or missing sections inside it) does not fail; an error is
raised only when a present field has an invalid shape, and it names that
field. -/
def parseWebhookPayload : Json → Except String WebhookPayload
  | .obj kvs => do
      let token ← parseOptStrField "token" (jlookup kvs "token")
      let properties ← parseOptObj "properties" parseProperties (jlookup kvs "properties")
      let event ← parseOptStrField "event" (jlookup kvs "event")
      return ⟨token, properties, event⟩
  | _ => .error "payload is not a mapping"

example : parseWebhookPayload (.obj []) = .ok ⟨Option.none, Option.none, Option.none⟩ := rfl
example : parseWebhookPayload (.obj [("properties", .obj [])]) =
    .ok ⟨Option.none, Option.some ⟨Option.none, Option.none, Option.none, [], [], []⟩,
      Option.none⟩ := rfl
example : parseWebhookPayload (.obj [("properties", .int 5)]) = .error "properties" := rfl
example : parseWebhookPayload
    (.obj [("properties", .obj [("Order", .obj [("total", .str "N/A")])])]) =
    .error "properties.Order.total" := rfl

/-- A row of the `restaurants` table (natural key `rest_id`). -/
structure RestaurantRow where
  rest_id : String
  res_name : Option String
  address : Option String
  contact_information : Option String

/-- A row of the `customers` table (`customer_id` is the surrogate key
returned by `RETURNING customer_id`; the conflict target is the unique
index on `(phone, gstin)`). -/
structure CustomerRow where
  customer_id : Nat
  name : Option String
  address : Option String
  phone : Option String
  gstin : Option String

/-- A row of the `orders` table (natural key `(order_id, rest_id)`).  The
fields `table_no`, `round_off` and `order_from_id` are written with the
raw payload value, without passing through `as_int`/`as_float`. -/
structure OrderRow where
  order_id : Int
  rest_id : String
  customer_id : Nat
  customer_invoice_id : Option String
  delivery_charges : Option ℚ
  order_type : Option String
  payment_type : Option String
  table_no : Option UStrInt
  no_of_persons : Option Int
  discount_total : Option ℚ
  tax_total : Option ℚ
  round_off : Option USFI
  core_total : Option ℚ
  total : Option ℚ
  created_on : Option PyDateTime
  order_from : Option String
  order_from_id : Option UStrInt
  sub_order_type : Option String
  packaging_charge : Option ℚ
  status : Option String
  comment : Option String
  biller : Option String
  assignee : Option String

/-- A row of the `taxes` table (key `(order_id, rest_id, title)`). -/
structure TaxRow where
  order_id : Int
  rest_id : String
  title : Option String
  rate : Option ℚ
  amount : Option ℚ

/-- A row of the `discounts` table (key `(order_id, rest_id, title)`). -/
structure DiscountRow where
  order_id : Int
  rest_id : String
  title : Option String
  type : Option String
  rate : Option ℚ
  amount : Option ℚ

/-- A row of the `order_items` table (key `(itemid, order_id, rest_id)`). -/
structure OrderItemRow where
  itemid : Option Int
  order_id : Int
  rest_id : String
  name : Option String
  itemcode : Option String
  vendoritemcode : Option String
  specialnotes : Option String
  price : Option ℚ
  quantity : Option Int
  total : Option ℚ
  category_name : Option String
  sap_code : Option String
  discount : Option ℚ
  tax : Option ℚ

/-- A row of the `addons` table (key
`(addon_id, itemid, order_id, rest_id)`). -/
structure AddonRow where
  addon_id : Option String
  itemid : Option Int
  order_id : Int
  rest_id : String
  group_name : Option String
  name : Option String
  price : Option ℚ
  quantity : Option Int
  sap_code : Option String
  addon_group_id : Option String

/-- A row of the `part_payments` table (key
`(order_id, rest_id, payment_type, amount)`). -/
structure PartPaymentRow where
  order_id : Int
  rest_id : String
  payment_type : Option String
  amount : Option ℚ
  custome_payment_type : Option String

/-- A row of the `failed_payloads` table written by
`save_failed_payload`. -/
structure FailedRow where
  payload : Json
  error : String

/-- The database: one list per table, plus the sequence counter behind the
`customer_id` surrogate key.  Rows are only ever appended (or, for
`customers`, conflict-updated); nothing is deleted. -/
structure DBState where
  restaurants : List RestaurantRow := []
  customers : List CustomerRow := []
  orders : List OrderRow := []
  taxes : List TaxRow := []
  discounts : List DiscountRow := []
  order_items : List OrderItemRow := []
  addons : List AddonRow := []
  part_payments : List PartPaymentRow := []
  failed : List FailedRow := []
  nextCustomerId : Nat := 0

/-- The empty database. -/
def emptyDB : DBState := {}

/-- PostgreSQL equality of two nullable key columns under the default
`NULLS DISTINCT` unique-index semantics: a `NULL` key value never equals
anything, including another `NULL`. -/
def nullableEq {α : Type} [BEq α] : Option α → Option α → Bool
  | Option.some a, Option.some b => a == b
  | _, _ => false

/-- One `INSERT ... ON CONFLICT ... DO NOTHING` execution: if some
existing row matches the new row's conflict key, the statement is a
benign skip; otherwise the row is appended. -/
def upsertSkip {R : Type} (keyEq : R → R → Bool) (rows : List R) (r : R) : List R :=
  if rows.any (fun row => keyEq row r) then rows else rows ++ [r]

/-- A sequence of conflict-skipping inserts, one per element of `l`. -/
def upsertFold {R : Type} (keyEq : R → R → Bool) (rows : List R) (l : List R) : List R :=
  l.foldl (fun rs r => upsertSkip keyEq rs r) rows

/-- Conflict key of `restaurants`: `rest_id`. -/
def restKeyEq (a b : RestaurantRow) : Bool := a.rest_id == b.rest_id

/-- Conflict key of `customers`: the unique index `(phone, gstin)`, nulls
distinct. -/
def customerKeyEq (a b : CustomerRow) : Bool :=
  nullableEq a.phone b.phone && nullableEq a.gstin b.gstin

/-- Conflict key of `orders`: `(order_id, rest_id)`. -/
def orderKeyEq (a b : OrderRow) : Bool :=
  a.order_id == b.order_id && a.rest_id == b.rest_id

/-- Conflict key of `taxes`: `(order_id, rest_id, title)`, `title` nulls
distinct. -/
def taxKeyEq (a b : TaxRow) : Bool :=
  a.order_id == b.order_id && a.rest_id == b.rest_id && nullableEq a.title b.title

/-- Conflict key of `discounts`: `(order_id, rest_id, title)`. -/
def discountKeyEq (a b : DiscountRow) : Bool :=
  a.order_id == b.order_id && a.rest_id == b.rest_id && nullableEq a.title b.title

/-- Conflict key of `order_items`: `(itemid, order_id, rest_id)`, `itemid`
nulls distinct. -/
def itemKeyEq (a b : OrderItemRow) : Bool :=
  nullableEq a.itemid b.itemid && a.order_id == b.order_id && a.rest_id == b.rest_id

/-- Conflict key of `addons`: `(addon_id, itemid, order_id, rest_id)`. -/
def addonKeyEq (a b : AddonRow) : Bool :=
  nullableEq a.addon_id b.addon_id && nullableEq a.itemid b.itemid &&
  a.order_id == b.order_id && a.rest_id == b.rest_id

/-- Conflict key of `part_payments`:
`(order_id, rest_id, payment_type, amount)`. -/
def ppKeyEq (a b : PartPaymentRow) : Bool :=
  a.order_id == b.order_id && a.rest_id == b.rest_id &&
  nullableEq a.payment_type b.payment_type && nullableEq a.amount b.amount

/-- The sections and derived ids that `insert_data` extracts before the
transaction (`src/db.py` lines 124-145): the three mandatory sections,
the defaulted lists, `rest_id = restaurant.restID` taken verbatim (only
checked against `None` — an empty string passes) and
`order_id = as_int(order.orderID)`. -/
structure ValidArgs where
  restaurant : Restaurant
  customer : Customer
  order : Order
  tax_list : List Tax
  discount_list : List Discount
  items : List OrderItem
  part_payments : List PartPayment
  rest_id : String
  order_id : Int
deriving DecidableEq

/-- The fail-fast phase of `insert_data`, raising `ValueError` (with the
source's message) before any database connection is acquired: missing
`properties`, missing `Restaurant`/`Customer`/`Order` sections, a `None`
`restID`, or an `orderID` that `as_int` cannot coerce.  The `or []`
defaults on the list fields are identities here because the pydantic
fields already default to the empty list. -/
def validatePayload (p : WebhookPayload) : Except String ValidArgs :=
  match p.properties with
  | Option.none => .error "Payload.properties is missing"
  | Option.some props =>
    match props.Restaurant, props.Customer, props.Order with
    | Option.some restaurant, Option.some customer, Option.some order =>
      match restaurant.restID, as_int (pyOfUIS order.orderID) with
      | Option.some rest_id, Option.some order_id =>
          .ok ⟨restaurant, customer, order, props.Tax, props.Discount, props.OrderItem,
            order.part_payments, rest_id, order_id⟩
      | _, _ => .error "Invalid or missing restID/orderID"
    | _, _, _ => .error "Restaurant/Customer/Order sections are missing in payload"

/-- The `restaurants` row inserted by `insert_data`. -/
def restRowOf (v : ValidArgs) : RestaurantRow :=
  ⟨v.rest_id, v.restaurant.res_name, v.restaurant.address, v.restaurant.contact_information⟩

/-- The `orders` row inserted by `insert_data` (source lines 194-232):
most numeric fields go through `as_float`/`as_int`, but `table_no`,
`round_off` and `order_from_id` are passed to the driver verbatim. -/
def orderRowOf (v : ValidArgs) (customer_id : Nat) : OrderRow where
  order_id := v.order_id
  rest_id := v.rest_id
  customer_id := customer_id
  customer_invoice_id := v.order.customer_invoice_id
  delivery_charges := as_float (pyOfUNum v.order.delivery_charges)
  order_type := v.order.order_type
  payment_type := v.order.payment_type
  table_no := v.order.table_no
  no_of_persons := as_int (pyOfUIS v.order.no_of_persons)
  discount_total := as_float (pyOfUNum v.order.discount_total)
  tax_total := as_float (pyOfUNum v.order.tax_total)
  round_off := v.order.round_off
  core_total := as_float (pyOfUNum v.order.core_total)
  total := as_float (pyOfUNum v.order.total)
  created_on := v.order.created_on
  order_from := v.order.order_from
  order_from_id := v.order.order_from_id
  sub_order_type := v.order.sub_order_type
  packaging_charge := as_float (pyOfUNum v.order.packaging_charge)
  status := v.order.status
  comment := v.order.comment
  biller := v.order.biller
  assignee := v.order.assignee

/-- The `taxes` row inserted for one `Tax` element. -/
def taxRowOf (v : ValidArgs) (t : Tax) : TaxRow :=
  ⟨v.order_id, v.rest_id, t.title, as_float (pyOfUNum t.rate), as_float (pyOfUNum t.amount)⟩

/-- The `discounts` row inserted for one `Discount` element. -/
def discountRowOf (v : ValidArgs) (d : Discount) : DiscountRow :=
  ⟨v.order_id, v.rest_id, d.title, d.type, as_float (pyOfUNum d.rate), as_float (pyOfUNum d.amount)⟩

/-- The `order_items` row inserted for one `OrderItem` element
(`item_id = as_int(item.itemid)`). -/
def itemRowOf (v : ValidArgs) (it : OrderItem) : OrderItemRow :=
  ⟨as_int (pyOfUIS it.itemid), v.order_id, v.rest_id, it.name, it.itemcode, it.vendoritemcode,
    it.specialnotes, as_float (pyOfUNum it.price), as_int (pyOfUIS it.quantity),
    as_float (pyOfUNum it.total), it.category_name, it.sap_code,
    as_float (pyOfUNum it.discount), as_float (pyOfUNum it.tax)⟩

/-- The `addons` row inserted for one `Addon` of the item whose coerced id
is `item_id`. -/
def addonRowOf (v : ValidArgs) (item_id : Option Int) (a : Addon) : AddonRow :=
  ⟨a.addon_id, item_id, v.order_id, v.rest_id, a.group_name, a.name,
    as_float (pyOfUNum a.price), as_int (pyOfUIS a.quantity), a.sap_code, a.addon_group_id⟩

/-- The `part_payments` row inserted for one `PartPayment` element. -/
def ppRowOf (v : ValidArgs) (pp : PartPayment) : PartPaymentRow :=
  ⟨v.order_id, v.rest_id, pp.payment_type, as_float (pyOfUNum pp.amount), pp.custome_payment_type⟩

/-- The restaurant upsert (`ON CONFLICT (rest_id) DO NOTHING`). -/
def restaurantOp (v : ValidArgs) (s : DBState) : DBState :=
  { s with restaurants := upsertSkip restKeyEq s.restaurants (restRowOf v) }

/-- The fresh `customers` row a delivery offers for insertion. -/
def newCustomerRow (v : ValidArgs) (n : Nat) : CustomerRow :=
  ⟨n, v.customer.name, v.customer.address, v.customer.phone, v.customer.gstin⟩

/-- The customer upsert (`ON CONFLICT (phone, gstin) DO UPDATE SET name,
address ... RETURNING customer_id`): if an existing row matches the
non-null `(phone, gstin)` key, its `name`/`address` are refreshed and its
id returned; otherwise a fresh row is inserted under a new surrogate id.
Because the conflict statement always produces a row, `fetchone` always
succeeds and the defensive `RuntimeError` branch of the source is
unreachable. -/
def customerOp (v : ValidArgs) (s : DBState) : DBState × Nat :=
  match s.customers.find? (fun row => customerKeyEq row (newCustomerRow v s.nextCustomerId)) with
  | Option.some r =>
      ({ s with customers := s.customers.map (fun row =>
          if customerKeyEq row (newCustomerRow v s.nextCustomerId)
          then { row with name := v.customer.name, address := v.customer.address }
          else row) },
        r.customer_id)
  | Option.none =>
      ({ s with
          customers := s.customers ++ [newCustomerRow v s.nextCustomerId]
          nextCustomerId := s.nextCustomerId + 1 },
        s.nextCustomerId)

/-- The order upsert (`ON CONFLICT (order_id, rest_id) DO NOTHING`). -/
def orderOp (v : ValidArgs) (customer_id : Nat) (s : DBState) : DBState :=
  { s with orders := upsertSkip orderKeyEq s.orders (orderRowOf v customer_id) }

/-- One tax upsert. -/
def taxOp (v : ValidArgs) (t : Tax) (s : DBState) : DBState :=
  { s with taxes := upsertSkip taxKeyEq s.taxes (taxRowOf v t) }

/-- One discount upsert. -/
def discountOp (v : ValidArgs) (d : Discount) (s : DBState) : DBState :=
  { s with discounts := upsertSkip discountKeyEq s.discounts (discountRowOf v d) }

/-- One order-item upsert. -/
def itemOp (v : ValidArgs) (it : OrderItem) (s : DBState) : DBState :=
  { s with order_items := upsertSkip itemKeyEq s.order_items (itemRowOf v it) }

/-- One addon upsert. -/
def addonOp (v : ValidArgs) (item_id : Option Int) (a : Addon) (s : DBState) : DBState :=
  { s with addons := upsertSkip addonKeyEq s.addons (addonRowOf v item_id a) }

/-- One part-payment upsert. -/
def ppOp (v : ValidArgs) (pp : PartPayment) (s : DBState) : DBState :=
  { s with part_payments := upsertSkip ppKeyEq s.part_payments (ppRowOf v pp) }

/-- The `cur.execute` statements of the four loops of `insert_data`, in
source order: taxes, discounts, then for each item the item insert
followed by its addon inserts, then part payments. -/
def tailOps (v : ValidArgs) : List (DBState → DBState) :=
  v.tax_list.map (taxOp v) ++
  v.discount_list.map (discountOp v) ++
  (v.items.map (fun it =>
      itemOp v it :: it.addon.map (addonOp v (as_int (pyOfUIS it.itemid))))).flatten ++
  v.part_payments.map (ppOp v)

/-- The error carried by a modelled unexpected database failure. -/
def dbErr : String := "unexpected database error"

/-- Run a list of statements starting at statement index `k`: the oracle
decides, per index, whether that `cur.execute` raises; a raise aborts the
remaining statements. -/
def runOps (oracle : Nat → Bool) : Nat → List (DBState → DBState) → DBState → Except String DBState
  | _, [], s => .ok s
  | k, f :: fs, s => if oracle k then .error dbErr else runOps oracle (k + 1) fs (f s)

/-- The body of the `with get_connection()` block of `insert_data`:
statement 0 is the restaurant insert, statement 1 the customer upsert
(whose returned `customer_id` feeds the order row), statement 2 the order
insert, and statements 3... the four loops. -/
def insertExec (oracle : Nat → Bool) (v : ValidArgs) (s0 : DBState) : Except String DBState :=
  if oracle 0 then .error dbErr else
  let s1 := restaurantOp v s0
  if oracle 1 then .error dbErr else
  let sc := customerOp v s1
  if oracle 2 then .error dbErr else
  let s3 := orderOp v sc.2 sc.1
  runOps oracle 3 (tailOps v) s3

/-- The state produced by a fully successful `insert_data` transaction:
every statement applied in order. -/
def applyInsert (v : ValidArgs) (s0 : DBState) : DBState :=
  let s1 := restaurantOp v s0
  let sc := customerOp v s1
  let s3 := orderOp v sc.2 sc.1
  (tailOps v).foldl (fun s f => f s) s3

/-- Number of `cur.execute` statements the transaction runs. -/
def opCount (v : ValidArgs) : Nat := 3 + (tailOps v).length

/-- The function `insert_data` of `src/db.py` under the `get_connection`
context manager: a failed fail-fast check raises `ValueError` before any
connection is acquired (the state is untouched and the oracle is never
consulted); otherwise the statements run inside one transaction that
`get_connection` commits on success and rolls back — restoring the
incoming state — on any exception, re-raising the error. -/
def insert_data (oracle : Nat → Bool) (s : DBState) (p : WebhookPayload) :
    DBState × Option String :=
  match validatePayload p with
  | .error e => (s, Option.some e)
  | .ok v =>
    match insertExec oracle v s with
    | .ok s2 => (s2, Option.none)
    | .error e => (s, Option.some e)

/-- `insert_data` on a database connection with no failures. -/
def insertOk (s : DBState) (p : WebhookPayload) : DBState × Option String :=
  insert_data (fun _ => false) s p

/-- Python string slicing `error_message[:5000]`. -/
def pyTake5000 (msg : String) : String := ⟨msg.data.take 5000⟩

/-- The function `save_failed_payload` of `src/db.py`, acting on the
`failed_payloads` table: it inserts the raw payload together with the
error message truncated to 5000 characters, in its own transaction;
`fail` models that transaction itself failing, in which case the error is
logged and swallowed — the function never raises to its caller (its Lean
type is total, with no error component). -/
def save_failed_payload (fail : Bool) (rows : List FailedRow) (raw : Json) (msg : String) :
    List FailedRow :=
  if fail then rows else rows ++ [⟨raw, pyTake5000 msg⟩]

/-- One iteration of the worker loop of `src/main.py`: validate the raw
payload via `WebhookPayload(**raw)`; on a validation error, capture the
raw payload to the failure sink with reason `"Validation error: ..."` and
continue; otherwise call `insert_data`, and on a write error capture the
raw payload with reason `"DB insert error: ..."`. -/
def worker_step (oracle : Nat → Bool) (sinkFail : Bool) (s : DBState) (raw : Json) : DBState :=
  match parseWebhookPayload raw with
  | .error e =>
      { s with failed := save_failed_payload sinkFail s.failed raw ("Validation error: " ++ e) }
  | .ok p =>
    match insert_data oracle s p with
    | (s2, Option.none) => s2
    | (s2, Option.some e) =>
        { s2 with failed := save_failed_payload sinkFail s2.failed raw ("DB insert error: " ++ e) }

/-- Outcome of `await request.json()` plus the `isinstance(payload, dict)`
check in the webhook handler. -/
inductive Body where
  | invalidJson
  | nonObject
  | obj (kvs : List (String × Json))

/-- Response body: the dict `{"status": "accepted"}` returned on success,
or the `detail` string of a raised `HTTPException`. -/
inductive RespBody where
  | accepted
  | detail (s : String)
deriving DecidableEq

/-- An HTTP response: status code and body. -/
structure Response where
  status : Nat
  body : RespBody

/-- The function `enqueue_payload` of `src/main.py`:
`QUEUE.put_nowait(payload)` appends when the queue is below `MAX_QUEUE`
and raises `asyncio.QueueFull` (modelled as `Option.none`) when at
capacity; the raise is re-raised to the handler. -/
def enqueue_payload (cap : Nat) (q : List Json) (p : Json) : Option (List Json) :=
  if cap ≤ q.length then Option.none else Option.some (q ++ [p])

/-- The `POST /webhook` handler of `src/main.py`.  `exc` models the
defensive `except Exception` branch (an unexpected runtime error while
enqueueing).  The route declares no `status_code`, so FastAPI returns the
dict `{"status": "accepted"}` with its default success status, 200 — not
202. -/
def webhook_handler (cap : Nat) (q : List Json) (exc : Option String) (b : Body) :
    Response × List Json :=
  match b with
  | .invalidJson => (⟨400, .detail "Invalid JSON body"⟩, q)
  | .nonObject => (⟨400, .detail "Body must be a JSON object"⟩, q)
  | .obj kvs =>
    match exc with
    | Option.some m => (⟨500, .detail m⟩, q)
    | Option.none =>
      match enqueue_payload cap q (.obj kvs) with
      | Option.none => (⟨503, .detail "Ingestion queue full, try again later."⟩, q)
      | Option.some q2 => (⟨200, .accepted⟩, q2)

/-- A well-formed payload whose customer carries no phone: the `(phone,
gstin)` conflict key contains a `NULL`. -/
def pNull : WebhookPayload :=
  { properties := Option.some
      { Restaurant := Option.some { restID := Option.some "R1" }
        Customer := Option.some
          { name := Option.some "Asha", address := Option.some "12 Lane",
            gstin := Option.some "GSTX" }
        Order := Option.some { orderID := Option.some (.i 7) } } }

/-- The `ValidArgs` that `validatePayload` extracts from `pNull`. -/
def vNull : ValidArgs :=
  ⟨{ restID := Option.some "R1" },
    { name := Option.some "Asha", address := Option.some "12 Lane",
      gstin := Option.some "GSTX" },
    { orderID := Option.some (.i 7) }, [], [], [], [], "R1", 7⟩

/-- The order section of `pGood`. -/
def orderGood : Order :=
  { orderID := Option.some (.i 41)
    total := Option.some (.i 500)
    part_payments := [{ payment_type := Option.some "card", amount := Option.some (.i 500) }] }

/-- A fully keyed payload: customer phone and gstin present, tax titled,
item id numeric, addon id present, part payment fully keyed. -/
def pGood : WebhookPayload :=
  { properties := Option.some
      { Restaurant := Option.some { restID := Option.some "R2", res_name := Option.some "MB" }
        Customer := Option.some
          { name := Option.some "Ben", phone := Option.some "P", gstin := Option.some "G" }
        Order := Option.some orderGood
        Tax := [{ title := Option.some "CGST", rate := Option.some (.i 5) }]
        OrderItem := [{ itemid := Option.some (.i 9), name := Option.some "Kebab",
                        addon := [{ addon_id := Option.some "A1" }] }] } }

/-- The `ValidArgs` that `validatePayload` extracts from `pGood`. -/
def vGood : ValidArgs :=
  ⟨{ restID := Option.some "R2", res_name := Option.some "MB" },
    { name := Option.some "Ben", phone := Option.some "P", gstin := Option.some "G" },
    orderGood,
    [{ title := Option.some "CGST", rate := Option.some (.i 5) }], [],
    [{ itemid := Option.some (.i 9), name := Option.some "Kebab",
       addon := [{ addon_id := Option.some "A1" }] }],
    orderGood.part_payments, "R2", 41⟩

/-- A payload whose `restID` is the empty string (and whose `orderID` is a
valid integer). -/
def pEmptyRest : WebhookPayload :=
  { properties := Option.some
      { Restaurant := Option.some { restID := Option.some "" }
        Customer := Option.some {}
        Order := Option.some { orderID := Option.some (.i 7) } } }

/-- A payload whose order carries non-numeric text in `round_off` and text
values in `table_no` / `order_from_id`. -/
def pRound : WebhookPayload :=
  { properties := Option.some
      { Restaurant := Option.some { restID := Option.some "R3" }
        Customer := Option.some {}
        Order := Option.some
          { orderID := Option.some (.i 8)
            round_off := Option.some (.s "abc")
            table_no := Option.some (.s "T1")
            order_from_id := Option.some (.s "Z9") } } }

/-- The `ValidArgs` that `validatePayload` extracts from `pRound`. -/
def vRound : ValidArgs :=
  ⟨{ restID := Option.some "R3" }, {},
    { orderID := Option.some (.i 8)
      round_off := Option.some (.s "abc")
      table_no := Option.some (.s "T1")
      order_from_id := Option.some (.s "Z9") }, [], [], [], [], "R3", 8⟩

/-- A raw webhook body whose `order.total` is the string `"N/A"`. -/
def rawNA : Json :=
  .obj [("properties", .obj
    [("Restaurant", .obj [("restID", .str "R1")]),
     ("Customer", .obj []),
     ("Order", .obj [("orderID", .int 7), ("total", .str "N/A")]),
     ("OrderItem", .arr [])])]

/-- A `NULL` in the left column of a nulls-distinct key never matches. -/
theorem nullableEq_none_left {α : Type} [BEq α] (b : Option α) :
    nullableEq Option.none b = false := by
  cases b <;> rfl

/-- A `NULL` in the right column of a nulls-distinct key never matches. -/
theorem nullableEq_none_right {α : Type} [BEq α] (a : Option α) :
    nullableEq a Option.none = false := by
  cases a <;> rfl

/-- A non-null key column matches itself. -/
theorem nullableEq_some_self {α : Type} [BEq α] [LawfulBEq α] (a : α) :
    nullableEq (Option.some a) (Option.some a) = true := by
  simp [nullableEq]

/-- A conflict-skipping insert preserves any existing key match. -/
theorem upsertSkip_any_mono {R : Type} (keyEq : R → R → Bool) (pred : R → Bool)
    (rows : List R) (r : R) (h : rows.any pred = true) :
    (upsertSkip keyEq rows r).any pred = true := by
  unfold upsertSkip
  split
  · exact h
  · simp [List.any_append, h]

/-- A sequence of conflict-skipping inserts preserves any existing key
match. -/
theorem upsertFold_any_mono {R : Type} (keyEq : R → R → Bool) (pred : R → Bool)
    (l : List R) :
    ∀ rows, rows.any pred = true → (upsertFold keyEq rows l).any pred = true := by
  induction l with
  | nil => exact fun rows h => h
  | cons a t ih =>
      intro rows h
      exact ih (upsertSkip keyEq rows a) (upsertSkip_any_mono keyEq pred rows a h)

/-- After conflict-skip inserting every row of `l` (each of which matches
its own key), every row of `l` has a match in the table. -/
theorem upsertFold_saturate {R : Type} (keyEq : R → R → Bool) (l : List R)
    (hl : ∀ r ∈ l, keyEq r r = true) :
    ∀ rows, ∀ r ∈ l, (upsertFold keyEq rows l).any (fun row => keyEq row r) = true := by
  induction l with
  | nil => intro rows r hr; cases hr
  | cons a t ih =>
      intro rows r hr
      rcases List.mem_cons.mp hr with h | h
      · subst h
        show (upsertFold keyEq (upsertSkip keyEq rows r) t).any (fun row => keyEq row r) = true
        apply upsertFold_any_mono
        unfold upsertSkip
        split
        · assumption
        · simp [List.any_append, hl r (List.mem_cons_self r t)]
      · exact ih (fun x hx => hl x (List.mem_cons_of_mem a hx)) (upsertSkip keyEq rows a) r h

/-- When every row of `l` already has a key match in the table, the whole
sequence of inserts is a benign no-op. -/
theorem upsertFold_skip {R : Type} (keyEq : R → R → Bool) (l : List R) (rows : List R)
    (h : ∀ r ∈ l, rows.any (fun row => keyEq row r) = true) :
    upsertFold keyEq rows l = rows := by
  induction l with
  | nil => rfl
  | cons a t ih =>
      show upsertFold keyEq (upsertSkip keyEq rows a) t = rows
      rw [upsertSkip, if_pos (h a (List.mem_cons_self a t))]
      exact ih (fun r hr => h r (List.mem_cons_of_mem a hr))

/-- Re-delivering the same batch of conflict-skipping inserts is a no-op. -/
theorem upsertFold_idem {R : Type} (keyEq : R → R → Bool) (l : List R) (rows : List R)
    (hl : ∀ r ∈ l, keyEq r r = true) :
    upsertFold keyEq (upsertFold keyEq rows l) l = upsertFold keyEq rows l :=
  upsertFold_skip keyEq l _ (fun r hr => upsertFold_saturate keyEq l hl rows r hr)

/-- A conflict-skipping insert never creates two rows with matching keys. -/
theorem upsertSkip_pairwise {R : Type} (keyEq : R → R → Bool) (rows : List R) (r : R)
    (h : rows.Pairwise (fun a b => keyEq a b = false)) :
    (upsertSkip keyEq rows r).Pairwise (fun a b => keyEq a b = false) := by
  unfold upsertSkip
  split
  · exact h
  · next hany =>
      rw [List.pairwise_append]
      refine ⟨h, List.pairwise_singleton _ _, ?_⟩
      intro a ha b hb
      rw [List.mem_singleton] at hb
      subst hb
      have hall := List.any_eq_false.mp (by simpa using hany)
      simpa using hall a ha

/-- A sequence of conflict-skipping inserts never creates two rows with
matching keys. -/
theorem upsertFold_pairwise {R : Type} (keyEq : R → R → Bool) (l : List R) :
    ∀ rows, rows.Pairwise (fun a b => keyEq a b = false) →
      (upsertFold keyEq rows l).Pairwise (fun a b => keyEq a b = false) := by
  induction l with
  | nil => exact fun rows h => h
  | cons a t ih =>
      intro rows h
      exact ih (upsertSkip keyEq rows a) (upsertSkip_pairwise keyEq rows a h)

/-- Splitting a sequence of conflict-skipping inserts. -/
theorem upsertFold_append {R : Type} (keyEq : R → R → Bool) (rows : List R)
    (l1 l2 : List R) :
    upsertFold keyEq rows (l1 ++ l2) = upsertFold keyEq (upsertFold keyEq rows l1) l2 := by
  simp [upsertFold, List.foldl_append]

/-- When no statement of the batch fails, `runOps` commits every statement
in order. -/
theorem runOps_ok (oracle : Nat → Bool) (fs : List (DBState → DBState)) :
    ∀ k s, (∀ i, i < fs.length → oracle (k + i) = false) →
      runOps oracle k fs s = .ok (fs.foldl (fun s f => f s) s) := by
  induction fs with
  | nil => intro k s _; rfl
  | cons f t ih =>
      intro k s h
      have h0 : oracle k = false := by simpa using h 0 (by simp)
      rw [runOps, if_neg (by simp [h0])]
      rw [List.foldl_cons]
      exact ih (k + 1) (f s) (fun i hi => by
        have := h (i + 1) (by simpa using Nat.succ_lt_succ hi)
        rwa [show k + 1 + i = k + (i + 1) by omega])

/-- When some statement of the batch fails unexpectedly, `runOps` raises. -/
theorem runOps_err (oracle : Nat → Bool) (fs : List (DBState → DBState)) :
    ∀ k s, (∃ i, i < fs.length ∧ oracle (k + i) = true) →
      runOps oracle k fs s = .error dbErr := by
  induction fs with
  | nil =>
      intro k s h
      obtain ⟨i, hi, _⟩ := h
      simp at hi
  | cons f t ih =>
      intro k s h
      obtain ⟨i, hi, hoi⟩ := h
      by_cases h0 : oracle k = true
      · rw [runOps, if_pos h0]
      · rw [runOps, if_neg h0]
        apply ih (k + 1) (f s)
        match i with
        | 0 => exact absurd (by simpa using hoi) h0
        | j + 1 =>
            refine ⟨j, by simpa using Nat.lt_of_succ_lt_succ hi, ?_⟩
            rwa [show k + 1 + j = k + (j + 1) by omega]

/-- The addon rows inserted for the whole item loop of one payload. -/
def addonRowsOf (v : ValidArgs) : List AddonRow :=
  (v.items.map (fun it => it.addon.map (addonRowOf v (as_int (pyOfUIS it.itemid))))).flatten

/-- The tax loop only touches the `taxes` table, one conflict-skipping
insert per element. -/
theorem foldl_taxOps (v : ValidArgs) (l : List Tax) :
    ∀ s, (l.map (taxOp v)).foldl (fun s f => f s) s =
      { s with taxes := upsertFold taxKeyEq s.taxes (l.map (taxRowOf v)) } := by
  induction l with
  | nil => intro s; rfl
  | cons a t ih =>
      intro s
      simp only [List.map_cons, List.foldl_cons]
      rw [ih (taxOp v a s)]
      rfl

/-- The discount loop only touches the `discounts` table. -/
theorem foldl_discountOps (v : ValidArgs) (l : List Discount) :
    ∀ s, (l.map (discountOp v)).foldl (fun s f => f s) s =
      { s with discounts := upsertFold discountKeyEq s.discounts (l.map (discountRowOf v)) } := by
  induction l with
  | nil => intro s; rfl
  | cons a t ih =>
      intro s
      simp only [List.map_cons, List.foldl_cons]
      rw [ih (discountOp v a s)]
      rfl

/-- The addon inner loop of one item only touches the `addons` table. -/
theorem foldl_addonOps (v : ValidArgs) (iid : Option Int) (l : List Addon) :
    ∀ s, (l.map (addonOp v iid)).foldl (fun s f => f s) s =
      { s with addons := upsertFold addonKeyEq s.addons (l.map (addonRowOf v iid)) } := by
  induction l with
  | nil => intro s; rfl
  | cons a t ih =>
      intro s
      simp only [List.map_cons, List.foldl_cons]
      rw [ih (addonOp v iid a s)]
      rfl

/-- The part-payment loop only touches the `part_payments` table. -/
theorem foldl_ppOps (v : ValidArgs) (l : List PartPayment) :
    ∀ s, (l.map (ppOp v)).foldl (fun s f => f s) s =
      { s with part_payments := upsertFold ppKeyEq s.part_payments (l.map (ppRowOf v)) } := by
  induction l with
  | nil => intro s; rfl
  | cons a t ih =>
      intro s
      simp only [List.map_cons, List.foldl_cons]
      rw [ih (ppOp v a s)]
      rfl

/-- The item loop interleaves item and addon inserts but decomposes into
independent folds over the `order_items` and `addons` tables. -/
theorem foldl_itemOps (v : ValidArgs) (l : List OrderItem) :
    ∀ s, ((l.map (fun it =>
        itemOp v it :: it.addon.map (addonOp v (as_int (pyOfUIS it.itemid))))).flatten).foldl
          (fun s f => f s) s =
      { s with
          order_items := upsertFold itemKeyEq s.order_items (l.map (itemRowOf v))
          addons := upsertFold addonKeyEq s.addons
            ((l.map (fun it => it.addon.map (addonRowOf v (as_int (pyOfUIS it.itemid))))).flatten) } := by
  induction l with
  | nil => intro s; rfl
  | cons it t ih =>
      intro s
      simp only [List.map_cons, List.flatten_cons, List.foldl_append, List.foldl_cons]
      rw [foldl_addonOps v (as_int (pyOfUIS it.itemid)) it.addon (itemOp v it s)]
      rw [ih]
      simp only [upsertFold_append]
      rfl

/-- Full decomposition of the four loops of `insert_data` into per-table
conflict-skipping folds. -/
theorem foldl_tailOps (v : ValidArgs) (s : DBState) :
    (tailOps v).foldl (fun s f => f s) s =
      { s with
          taxes := upsertFold taxKeyEq s.taxes (v.tax_list.map (taxRowOf v))
          discounts := upsertFold discountKeyEq s.discounts (v.discount_list.map (discountRowOf v))
          order_items := upsertFold itemKeyEq s.order_items (v.items.map (itemRowOf v))
          addons := upsertFold addonKeyEq s.addons (addonRowsOf v)
          part_payments := upsertFold ppKeyEq s.part_payments (v.part_payments.map (ppRowOf v)) } := by
  unfold tailOps
  rw [List.foldl_append, List.foldl_append, List.foldl_append]
  rw [foldl_taxOps, foldl_discountOps, foldl_itemOps, foldl_ppOps]
  rfl

/-- With no database failure, the transaction body commits the fully
applied state. -/
theorem insertExec_false (v : ValidArgs) (s : DBState) :
    insertExec (fun _ => false) v s = .ok (applyInsert v s) := by
  unfold insertExec applyInsert
  exact runOps_ok (fun _ => false) (tailOps v) 3 _ (fun _ _ => rfl)

/-- With no database failure, `insert_data` returns the fully applied
state and no error. -/
theorem insertOk_applyInsert (p : WebhookPayload) (v : ValidArgs) (s : DBState)
    (hv : validatePayload p = .ok v) :
    insertOk s p = (applyInsert v s, Option.none) := by
  unfold insertOk insert_data
  rw [hv]
  show (match insertExec (fun _ => false) v s with
        | .ok s2 => (s2, Option.none)
        | .error e => (s, Option.some e)) = (applyInsert v s, Option.none)
  rw [insertExec_false]

/-- When every statement index below `opCount` is failure-free, the
transaction body commits the fully applied state. -/
theorem insertExec_ok (oracle : Nat → Bool) (v : ValidArgs) (s : DBState)
    (h : ∀ k, k < opCount v → oracle k = false) :
    insertExec oracle v s = .ok (applyInsert v s) := by
  have hlen : ∀ k, k < 3 + (tailOps v).length → oracle k = false := by
    intro k hk
    exact h k (by unfold opCount; omega)
  unfold insertExec applyInsert
  rw [if_neg (by simp [hlen 0 (by omega)]), if_neg (by simp [hlen 1 (by omega)]),
    if_neg (by simp [hlen 2 (by omega)])]
  exact runOps_ok oracle (tailOps v) 3 _ (fun i hi => hlen (3 + i) (by omega))

/-- When some statement index below `opCount` fails, the transaction body
raises the database error. -/
theorem insertExec_fails (oracle : Nat → Bool) (v : ValidArgs) (s : DBState)
    (h : ∃ k, k < opCount v ∧ oracle k = true) :
    insertExec oracle v s = .error dbErr := by
  obtain ⟨k, hk, hko⟩ := h
  have hk3 : k < 3 + (tailOps v).length := by
    have : opCount v = 3 + (tailOps v).length := rfl
    omega
  unfold insertExec
  by_cases h0 : oracle 0 = true
  · rw [if_pos h0]
  · rw [if_neg h0]
    by_cases h1 : oracle 1 = true
    · rw [if_pos h1]
    · rw [if_neg h1]
      by_cases h2 : oracle 2 = true
      · rw [if_pos h2]
      · rw [if_neg h2]
        apply runOps_err
        have hk0 : k ≠ 0 := fun h => by subst h; exact h0 hko
        have hk1 : k ≠ 1 := fun h => by subst h; exact h1 hko
        have hk2 : k ≠ 2 := fun h => by subst h; exact h2 hko
        refine ⟨k - 3, by omega, ?_⟩
        rwa [show 3 + (k - 3) = k by omega]

/-- Every statement of the four loops leaves the `restaurants`,
`customers`, `orders` and `failed_payloads` tables and the customer-id
counter untouched. -/
theorem tailOps_preserve (v : ValidArgs) :
    ∀ f ∈ tailOps v, ∀ s : DBState,
      (f s).restaurants = s.restaurants ∧ (f s).customers = s.customers ∧
      (f s).orders = s.orders ∧ (f s).failed = s.failed ∧
      (f s).nextCustomerId = s.nextCustomerId := by
  intro f hf s
  simp only [tailOps, List.mem_append, List.mem_map, List.mem_flatten] at hf
  rcases hf with ((⟨t, _, hft⟩ | ⟨d, _, hfd⟩) | ⟨l, ⟨it, _, hl⟩, hfl⟩) | ⟨pp, _, hfp⟩
  · subst hft; exact ⟨rfl, rfl, rfl, rfl, rfl⟩
  · subst hfd; exact ⟨rfl, rfl, rfl, rfl, rfl⟩
  · subst hl
    rcases List.mem_cons.mp hfl with hfi | hfa
    · subst hfi; exact ⟨rfl, rfl, rfl, rfl, rfl⟩
    · obtain ⟨a, _, hfa⟩ := List.mem_map.mp hfa
      subst hfa; exact ⟨rfl, rfl, rfl, rfl, rfl⟩
  · subst hfp; exact ⟨rfl, rfl, rfl, rfl, rfl⟩

/-- Projection invariance through a fold of state transformers. -/
theorem foldl_preserve {α : Type} (proj : DBState → α) (fs : List (DBState → DBState))
    (h : ∀ f ∈ fs, ∀ s, proj (f s) = proj s) :
    ∀ s, proj (fs.foldl (fun s f => f s) s) = proj s := by
  induction fs with
  | nil => intro s; rfl
  | cons f t ih =>
      intro s
      rw [List.foldl_cons, ih (fun g hg s => h g (List.mem_cons_of_mem f hg) s), h f (List.mem_cons_self f t)]

/-- C1: whenever the fail-fast checks pass, the transaction is atomic: if
no statement fails, `insert_data` commits exactly the fully applied
entity graph and reports no error; if any statement of the sequence fails
unexpectedly, `get_connection` rolls the whole transaction back — the
database is exactly the incoming state, with no restaurant, customer or
order row of the payload persisted — and the error is surfaced to the
caller. -/
theorem insert_data_atomic (oracle : Nat → Bool) (p : WebhookPayload) (v : ValidArgs)
    (s : DBState) (hv : validatePayload p = .ok v) :
    ((∀ k, k < opCount v → oracle k = false) →
      insert_data oracle s p = (applyInsert v s, Option.none)) ∧
    ((∃ k, k < opCount v ∧ oracle k = true) →
      insert_data oracle s p = (s, Option.some dbErr)) := by
  constructor
  · intro h
    unfold insert_data
    rw [hv]
    show (match insertExec oracle v s with
          | .ok s2 => (s2, Option.none)
          | .error e => (s, Option.some e)) = _
    rw [insertExec_ok oracle v s h]
  · intro h
    unfold insert_data
    rw [hv]
    show (match insertExec oracle v s with
          | .ok s2 => (s2, Option.none)
          | .error e => (s, Option.some e)) = _
    rw [insertExec_fails oracle v s h]

/-- Witness for C1: on a concrete payload, a failure at the order insert
(statement 2) leaves the empty database empty and surfaces the error,
while a failure-free run commits the full graph. -/
theorem insert_data_atomic_witness :
    insert_data (fun k => k == 2) emptyDB pGood = (emptyDB, Option.some dbErr) ∧
    insert_data (fun _ => false) emptyDB pGood = (applyInsert vGood emptyDB, Option.none) :=
  ⟨(insert_data_atomic (fun k => k == 2) pGood vGood emptyDB rfl).2 ⟨2, by decide, rfl⟩,
   (insert_data_atomic (fun _ => false) pGood vGood emptyDB rfl).1 (fun _ _ => rfl)⟩

/-- C5 (corrected): the handler's status table.  Success returns 200 —
FastAPI's default for a route with no `status_code` — with the
`{"status": "accepted"}` body, not 202; 503 when the queue is at
capacity; 400 for unparseable or non-object bodies; 500 on any other
unexpected enqueue failure. -/
theorem webhook_status_spec (cap : Nat) (q : List Json) :
    webhook_handler cap q Option.none .invalidJson = (⟨400, .detail "Invalid JSON body"⟩, q) ∧
    webhook_handler cap q Option.none .nonObject =
      (⟨400, .detail "Body must be a JSON object"⟩, q) ∧
    (∀ kvs, q.length < cap →
      webhook_handler cap q Option.none (.obj kvs) = (⟨200, .accepted⟩, q ++ [Json.obj kvs])) ∧
    (∀ kvs, cap ≤ q.length →
      webhook_handler cap q Option.none (.obj kvs) =
        (⟨503, .detail "Ingestion queue full, try again later."⟩, q)) ∧
    (∀ kvs m, webhook_handler cap q (Option.some m) (.obj kvs) = (⟨500, .detail m⟩, q)) := by
  refine ⟨rfl, rfl, ?_, ?_, fun kvs m => rfl⟩
  · intro kvs h
    simp [webhook_handler, enqueue_payload, Nat.not_le.mpr h]
  · intro kvs h
    simp [webhook_handler, enqueue_payload, h]

/-- Counterexample for C5: an accepted enqueue answers status 200, not the
202 the claim states. -/
theorem webhook_success_status_200 :
    (webhook_handler 10 [] Option.none (.obj [])).1.status = 200 ∧
    (webhook_handler 10 [] Option.none (.obj [])).1.status ≠ 202 ∧
    (webhook_handler 10 [] Option.none (.obj [])).1.body = .accepted := by
  exact ⟨rfl, by decide, rfl⟩

/-- Witness for C5: concrete accept and queue-full responses. -/
theorem webhook_status_spec_witness :
    webhook_handler 2 [] Option.none (.obj []) = (⟨200, .accepted⟩, [Json.obj []]) ∧
    webhook_handler 1 [Json.obj []] Option.none (.obj []) =
      (⟨503, .detail "Ingestion queue full, try again later."⟩, [Json.obj []]) :=
  ⟨(webhook_status_spec 2 []).2.2.1 [] (by decide),
   (webhook_status_spec 1 [Json.obj []]).2.2.2.1 [] (by decide)⟩

/-- C7 (corrected): the coercion helpers are total — null/empty inputs map
to null, `as_float` passes both numeric kinds through, string inputs go
through the string-to-number parse (null on failure) — but `as_int` does
not pass a `float` through: `int(str(float))` always fails, so a float
input yields null. -/
theorem as_helpers_spec :
    (as_int PyVal.none = Option.none ∧ as_float PyVal.none = Option.none) ∧
    (as_int (.str "") = Option.none ∧ as_float (.str "") = Option.none) ∧
    (∀ n : Int, as_int (.int n) = Option.some n ∧ as_float (.int n) = Option.some ((n : ℚ))) ∧
    (∀ q : ℚ, as_float (.float q) = Option.some q ∧ as_int (.float q) = Option.none) ∧
    (∀ s : String, s ≠ "" →
      as_int (.str s) = pyIntOfString s ∧ as_float (.str s) = pyFloatOfString s) := by
  refine ⟨⟨rfl, rfl⟩, ⟨rfl, rfl⟩, fun n => ⟨rfl, rfl⟩, fun q => ⟨rfl, rfl⟩, fun s hs => ⟨?_, ?_⟩⟩
  · simp [as_int, hs]
  · simp [as_float, hs]

/-- Counterexample for C7: a float is an already-numeric input, yet
`as_int` returns null for it instead of passing it through as an integer
(while `as_float` does pass it through). -/
theorem as_int_float_not_passthrough :
    isNumericPy (PyVal.float (5 / 2)) = true ∧
    as_int (PyVal.float (5 / 2)) = Option.none ∧
    as_float (PyVal.float (5 / 2)) = Option.some (5 / 2) :=
  ⟨rfl, rfl, rfl⟩

/-- Witness for C7: the string branch on concrete parseable and
unparseable inputs, and the int pass-through. -/
theorem as_helpers_spec_witness :
    as_int (.str "17") = pyIntOfString "17" ∧
    as_float (.str "N/A") = pyFloatOfString "N/A" ∧
    as_int (.int 3) = Option.some 3 :=
  ⟨(as_helpers_spec.2.2.2.2 "17" (by decide)).1,
   (as_helpers_spec.2.2.2.2 "N/A" (by decide)).2,
   (as_helpers_spec.2.2.1 3).1⟩

/-- C9: `save_failed_payload` either swallows its own failure (leaving the
sink unchanged — it never raises to its caller, as its total return type
shows) or appends exactly one row whose error text is the reason
truncated to at most 5000 characters. -/
theorem save_failed_payload_spec (fail : Bool) (rows : List FailedRow) (raw : Json)
    (msg : String) :
    (save_failed_payload fail rows raw msg = rows ∨
      save_failed_payload fail rows raw msg = rows ++ [⟨raw, pyTake5000 msg⟩]) ∧
    (pyTake5000 msg).length ≤ 5000 := by
  constructor
  · unfold save_failed_payload
    split
    · exact Or.inl rfl
    · exact Or.inr rfl
  · show (msg.data.take 5000).length ≤ 5000
    rw [List.length_take]
    exact min_le_left _ _

/-- C6 (corrected): a `ValueError` from the fail-fast phase propagates
with the state untouched and independent of the database (the oracle is
arbitrary — no connection is consulted); and the checks succeed exactly
when `properties` and all three sections are present, `restID` is
non-null (an *empty string is accepted*, contrary to the claim's
"non-empty text") and `orderID` coerces to an integer. -/
theorem validate_fail_fast_spec (p : WebhookPayload) :
    (∀ e, validatePayload p = .error e →
      ∀ oracle s, insert_data oracle s p = (s, Option.some e)) ∧
    ((∃ v, validatePayload p = .ok v) ↔
      ∃ props restaurant customer order rid oid,
        p.properties = Option.some props ∧
        props.Restaurant = Option.some restaurant ∧
        props.Customer = Option.some customer ∧
        props.Order = Option.some order ∧
        restaurant.restID = Option.some rid ∧
        as_int (pyOfUIS order.orderID) = Option.some oid) := by
  constructor
  · intro e he oracle s
    unfold insert_data
    rw [he]
  · constructor
    · rintro ⟨v, hv⟩
      unfold validatePayload at hv
      cases hp : p.properties with
      | none => simp [hp] at hv
      | some props =>
          simp only [hp] at hv
          cases hr : props.Restaurant with
          | none => simp [hr] at hv
          | some restaurant =>
              cases hc : props.Customer with
              | none => simp [hr, hc] at hv
              | some customer =>
                  cases ho : props.Order with
                  | none => simp [hr, hc, ho] at hv
                  | some order =>
                      simp only [hr, hc, ho] at hv
                      cases hrid : restaurant.restID with
                      | none => simp [hrid] at hv
                      | some rid =>
                          cases hoid : as_int (pyOfUIS order.orderID) with
                          | none => simp [hrid, hoid] at hv
                          | some oid =>
                              exact ⟨props, restaurant, customer, order, rid, oid,
                                rfl, hr, hc, ho, hrid, hoid⟩
    · rintro ⟨props, restaurant, customer, order, rid, oid, h1, h2, h3, h4, h5, h6⟩
      refine ⟨⟨restaurant, customer, order, props.Tax, props.Discount, props.OrderItem,
        order.part_payments, rid, oid⟩, ?_⟩
      simp [validatePayload, h1, h2, h3, h4, h5, h6]

/-- Counterexample for C6: a payload whose `restID` is the empty string is
accepted by the fail-fast checks (the source only compares against
`None`), although the claim requires rejection unless `rest_id` coerces
to non-empty text. -/
theorem empty_restid_accepted :
    validatePayload pEmptyRest =
      .ok ⟨{ restID := Option.some "" }, {}, { orderID := Option.some (.i 7) },
        [], [], [], [], "", 7⟩ := rfl

/-- Witness for C6: a payload with no `properties` is rejected with the
source's message, leaving any state untouched under any oracle. -/
theorem validate_fail_fast_witness :
    insert_data (fun _ => true) emptyDB ({} : WebhookPayload) =
      (emptyDB, Option.some "Payload.properties is missing") :=
  (validate_fail_fast_spec {}).1 "Payload.properties is missing" rfl (fun _ => true) emptyDB

/-- C3 (corrected): `WebhookPayload` construction succeeds when
`properties` is absent and when the `Restaurant`/`Customer`/`Order`/
`OrderItem` entries are absent inside it (everything defaults to
`None`/empty); a validation error arises only for a present field of
invalid shape.  The missing-section rejection the claim describes
actually happens later, in `insert_data`. -/
theorem parse_section_absence (kvs pkvs : List (String × Json))
    (ht : jlookup kvs "token" = Option.none)
    (he : jlookup kvs "event" = Option.none) :
    (jlookup kvs "properties" = Option.none →
      parseWebhookPayload (.obj kvs) = .ok {}) ∧
    (jlookup kvs "properties" = Option.some (.obj pkvs) →
      jlookup pkvs "Restaurant" = Option.none →
      jlookup pkvs "Customer" = Option.none →
      jlookup pkvs "Order" = Option.none →
      jlookup pkvs "Tax" = Option.none →
      jlookup pkvs "Discount" = Option.none →
      jlookup pkvs "OrderItem" = Option.none →
      parseWebhookPayload (.obj kvs) = .ok { properties := Option.some {} }) := by
  constructor
  · intro hp
    simp [parseWebhookPayload, parseOptStrField, parseOptObj, ht, he, hp, Bind.bind, Except.bind]
    rfl
  · intro hp h1 h2 h3 h4 h5 h6
    simp [parseWebhookPayload, parseOptStrField, parseOptObj, parseProperties, parseObjList,
      ht, he, hp, h1, h2, h3, h4, h5, h6, Bind.bind, Except.bind]
    rfl

/-- Counterexample for C3: parsing a raw payload with no `properties`, or
with `properties` present but all four sections absent, succeeds — the
claim requires a validation error naming the missing field in both
cases. -/
theorem parse_missing_properties_succeeds :
    parseWebhookPayload (.obj []) = .ok ⟨Option.none, Option.none, Option.none⟩ ∧
    parseWebhookPayload (.obj [("properties", .obj [])]) =
      .ok ⟨Option.none,
        Option.some ⟨Option.none, Option.none, Option.none, [], [], []⟩, Option.none⟩ :=
  ⟨rfl, rfl⟩

/-- Witness for C3: concrete raw bodies with unrelated extra keys. -/
theorem parse_section_absence_witness :
    parseWebhookPayload (.obj [("foo", .int 1)]) = .ok {} ∧
    parseWebhookPayload (.obj [("properties", .obj [("bar", .str "x")])]) =
      .ok { properties := Option.some {} } :=
  ⟨(parse_section_absence [("foo", .int 1)] [] rfl rfl).1 rfl,
   (parse_section_absence [("properties", .obj [("bar", .str "x")])] [("bar", .str "x")]
      rfl rfl).2 rfl rfl rfl rfl rfl rfl rfl⟩

/-- Counterexample for C4: a payload whose `order.total` is `"N/A"` *is*
rejected at `WebhookPayload` validation — `total` is typed
`Optional[Union[int, float]]`, and a non-numeric string satisfies neither
member — so it never reaches `insert_data`'s `as_float`. -/
theorem total_na_rejected_at_validation :
    parseWebhookPayload rawNA = .error "properties.Order.total" := rfl

/-- C4 (corrected): the worker routes the `"N/A"`-total payload to the
failure sink with a validation-error reason; no business row — in
particular no order row — is written. -/
theorem worker_total_na_capture :
    worker_step (fun _ => false) false emptyDB rawNA =
      { emptyDB with failed := [⟨rawNA, "Validation error: properties.Order.total"⟩] } := rfl

/-- The customer upsert touches only the `customers` table and the id
counter. -/
theorem customerOp_fix (v : ValidArgs) (s : DBState) :
    (customerOp v s).1.restaurants = s.restaurants ∧ (customerOp v s).1.orders = s.orders ∧
    (customerOp v s).1.taxes = s.taxes ∧ (customerOp v s).1.discounts = s.discounts ∧
    (customerOp v s).1.order_items = s.order_items ∧ (customerOp v s).1.addons = s.addons ∧
    (customerOp v s).1.part_payments = s.part_payments ∧ (customerOp v s).1.failed = s.failed := by
  unfold customerOp
  split <;> exact ⟨rfl, rfl, rfl, rfl, rfl, rfl, rfl, rfl⟩

/-- The `orders` table produced by one full transaction: exactly the
incoming table plus (conflict-skip) the payload's order row. -/
theorem applyInsert_orders (v : ValidArgs) (s : DBState) :
    (applyInsert v s).orders =
      upsertSkip orderKeyEq s.orders
        (orderRowOf v (customerOp v (restaurantOp v s)).2) := by
  unfold applyInsert
  rw [foldl_preserve (fun s => s.orders) (tailOps v)
    (fun f hf s => (tailOps_preserve v f hf s).2.2.1)]
  show upsertSkip orderKeyEq (customerOp v (restaurantOp v s)).1.orders _ = _
  rw [(customerOp_fix v (restaurantOp v s)).2.1]
  rfl

/-- The `customers` table produced by one full transaction is decided
entirely by the customer upsert. -/
theorem applyInsert_customers (v : ValidArgs) (s : DBState) :
    (applyInsert v s).customers = (customerOp v (restaurantOp v s)).1.customers := by
  unfold applyInsert
  rw [foldl_preserve (fun s => s.customers) (tailOps v)
    (fun f hf s => (tailOps_preserve v f hf s).2.1)]
  rfl

/-- C8 (corrected): in the committed order row, the monetary and count
fields go through `as_float`/`as_int` (so non-coercible values become
null), but `table_no`, `round_off` and `order_from_id` are written
verbatim from the payload, with no coercion at all. -/
theorem order_row_coercion_spec (p : WebhookPayload) (v : ValidArgs)
    (hv : validatePayload p = .ok v) :
    (insertOk emptyDB p).1.orders.map (fun r =>
        (r.delivery_charges, r.no_of_persons, r.discount_total, r.tax_total, r.core_total,
          r.total, r.packaging_charge, r.table_no, r.round_off, r.order_from_id)) =
      [(as_float (pyOfUNum v.order.delivery_charges), as_int (pyOfUIS v.order.no_of_persons),
        as_float (pyOfUNum v.order.discount_total), as_float (pyOfUNum v.order.tax_total),
        as_float (pyOfUNum v.order.core_total), as_float (pyOfUNum v.order.total),
        as_float (pyOfUNum v.order.packaging_charge), v.order.table_no, v.order.round_off,
        v.order.order_from_id)] := by
  rw [insertOk_applyInsert p v emptyDB hv]
  show (applyInsert v emptyDB).orders.map _ = _
  rw [applyInsert_orders]
  rfl

/-- Counterexample for C8: text in `round_off`, `table_no` and
`order_from_id` is stored verbatim in the order row — though the coercion
helpers would have turned each of these values into null — so these
fields are not "coerced to a canonical numeric type before being
written". -/
theorem round_off_stored_raw :
    (insertOk emptyDB pRound).1.orders.map
        (fun r => (r.round_off, r.table_no, r.order_from_id)) =
      [(Option.some (USFI.s "abc"), Option.some (UStrInt.s "T1"),
        Option.some (UStrInt.s "Z9"))] ∧
    as_float (.str "abc") = Option.none ∧ as_int (.str "T1") = Option.none ∧
    as_int (.str "Z9") = Option.none := by
  exact ⟨rfl, rfl, rfl, rfl⟩

/-- Witness for C8: the coercion table instantiated on `pRound`. -/
theorem order_row_coercion_witness :
    (insertOk emptyDB pRound).1.orders.map (fun r =>
        (r.delivery_charges, r.no_of_persons, r.discount_total, r.tax_total, r.core_total,
          r.total, r.packaging_charge, r.table_no, r.round_off, r.order_from_id)) =
      [(as_float (pyOfUNum vRound.order.delivery_charges),
        as_int (pyOfUIS vRound.order.no_of_persons),
        as_float (pyOfUNum vRound.order.discount_total),
        as_float (pyOfUNum vRound.order.tax_total),
        as_float (pyOfUNum vRound.order.core_total), as_float (pyOfUNum vRound.order.total),
        as_float (pyOfUNum vRound.order.packaging_charge), vRound.order.table_no,
        vRound.order.round_off, vRound.order.order_from_id)] :=
  order_row_coercion_spec pRound vRound rfl

/-- Pointwise-identity maps leave a list unchanged. -/
theorem list_map_self {α : Type} (l : List α) (f : α → α) (h : ∀ a ∈ l, f a = a) :
    l.map f = l := by
  induction l with
  | nil => rfl
  | cons a t ih =>
      rw [List.map_cons, h a (List.mem_cons_self a t),
        ih (fun b hb => h b (List.mem_cons_of_mem a hb))]

/-- The state committed by one transaction run against the empty
database: one restaurant, one customer (id 0), one order, and the
conflict-skip folds of the four loops over empty tables. -/
theorem applyInsert_empty (v : ValidArgs) :
    applyInsert v emptyDB =
      { restaurants := [restRowOf v]
        customers := [newCustomerRow v 0]
        orders := [orderRowOf v 0]
        taxes := upsertFold taxKeyEq [] (v.tax_list.map (taxRowOf v))
        discounts := upsertFold discountKeyEq [] (v.discount_list.map (discountRowOf v))
        order_items := upsertFold itemKeyEq [] (v.items.map (itemRowOf v))
        addons := upsertFold addonKeyEq [] (addonRowsOf v)
        part_payments := upsertFold ppKeyEq [] (v.part_payments.map (ppRowOf v))
        failed := []
        nextCustomerId := 1 } := by
  unfold applyInsert
  rw [foldl_tailOps]
  rfl

/-- A state in which every statement of the payload's transaction hits an
existing conflict key (and the matched customer rows already carry the
payload's name/address) is a fixed point of the transaction: re-running
the whole insert changes nothing. -/
theorem applyInsert_fix (v : ValidArgs) (s : DBState)
    (hrest : s.restaurants.any (fun row => restKeyEq row (restRowOf v)) = true)
    (hcex : s.customers.any
      (fun row => customerKeyEq row (newCustomerRow v s.nextCustomerId)) = true)
    (hcsame : ∀ row ∈ s.customers,
      customerKeyEq row (newCustomerRow v s.nextCustomerId) = true →
      row.name = v.customer.name ∧ row.address = v.customer.address)
    (horder : ∀ cid, s.orders.any (fun row => orderKeyEq row (orderRowOf v cid)) = true)
    (htax : ∀ r ∈ v.tax_list.map (taxRowOf v), s.taxes.any (fun row => taxKeyEq row r) = true)
    (hdis : ∀ r ∈ v.discount_list.map (discountRowOf v),
      s.discounts.any (fun row => discountKeyEq row r) = true)
    (hitem : ∀ r ∈ v.items.map (itemRowOf v),
      s.order_items.any (fun row => itemKeyEq row r) = true)
    (haddon : ∀ r ∈ addonRowsOf v, s.addons.any (fun row => addonKeyEq row r) = true)
    (hppm : ∀ r ∈ v.part_payments.map (ppRowOf v),
      s.part_payments.any (fun row => ppKeyEq row r) = true) :
    applyInsert v s = s := by
  unfold applyInsert
  rw [foldl_tailOps]
  have h1 : restaurantOp v s = s := by
    unfold restaurantOp upsertSkip
    rw [if_pos hrest]
  rw [h1]
  have h2 : (customerOp v s).1 = s := by
    unfold customerOp
    obtain ⟨r, hfind⟩ : ∃ r, s.customers.find?
        (fun row => customerKeyEq row (newCustomerRow v s.nextCustomerId)) = Option.some r := by
      rw [← Option.isSome_iff_exists, List.find?_isSome]
      exact List.any_eq_true.mp hcex
    rw [hfind]
    have hmap : s.customers.map (fun row =>
        if customerKeyEq row (newCustomerRow v s.nextCustomerId)
        then { row with name := v.customer.name, address := v.customer.address }
        else row) = s.customers := by
      apply list_map_self
      intro row hrow
      by_cases hkey : customerKeyEq row (newCustomerRow v s.nextCustomerId) = true
      · rw [if_pos hkey]
        obtain ⟨hn, ha⟩ := hcsame row hrow hkey
        rw [← hn, ← ha]
      · rw [if_neg hkey]
    simp [hmap]
  rw [h2]
  have h3 : orderOp v (customerOp v s).2 s = s := by
    unfold orderOp upsertSkip
    rw [if_pos (horder (customerOp v s).2)]
  rw [h3]
  rw [upsertFold_skip taxKeyEq _ _ htax, upsertFold_skip discountKeyEq _ _ hdis,
    upsertFold_skip itemKeyEq _ _ hitem, upsertFold_skip addonKeyEq _ _ haddon,
    upsertFold_skip ppKeyEq _ _ hppm]

/-- C10: when the payload's customer phone or gstin is null, the
`ON CONFLICT (phone, gstin)` clause can never fire (PostgreSQL unique
indexes treat nulls as distinct), so every delivery appends a fresh
`customers` row; deduplication works only when both key fields are
non-null and a matching row exists, in which case no row is added. -/
theorem customer_null_key_inserts_each_time (p : WebhookPayload) (v : ValidArgs) (s : DBState)
    (hv : validatePayload p = .ok v) :
    ((v.customer.phone = Option.none ∨ v.customer.gstin = Option.none) →
      (insertOk s p).1.customers.length = s.customers.length + 1) ∧
    (∀ ph g, v.customer.phone = Option.some ph → v.customer.gstin = Option.some g →
      (∃ r ∈ s.customers, r.phone = Option.some ph ∧ r.gstin = Option.some g) →
      (insertOk s p).1.customers.length = s.customers.length) := by
  have hrc : (restaurantOp v s).customers = s.customers := rfl
  have hrn : (restaurantOp v s).nextCustomerId = s.nextCustomerId := rfl
  constructor
  · intro hnull
    rw [insertOk_applyInsert p v s hv]
    show (applyInsert v s).customers.length = _
    rw [applyInsert_customers]
    unfold customerOp
    have hfind : (restaurantOp v s).customers.find?
        (fun row => customerKeyEq row
          (newCustomerRow v (restaurantOp v s).nextCustomerId)) = Option.none := by
      rw [List.find?_eq_none]
      intro row _
      rcases hnull with hph | hg
      · simp [customerKeyEq, newCustomerRow, hph, nullableEq_none_right]
      · simp [customerKeyEq, newCustomerRow, hg, nullableEq_none_right]
    rw [hfind]
    simp [hrc]
  · intro ph g hph hg hex
    rw [insertOk_applyInsert p v s hv]
    show (applyInsert v s).customers.length = _
    rw [applyInsert_customers]
    unfold customerOp
    obtain ⟨r, hfind⟩ : ∃ r, (restaurantOp v s).customers.find?
        (fun row => customerKeyEq row
          (newCustomerRow v (restaurantOp v s).nextCustomerId)) = Option.some r := by
      rw [← Option.isSome_iff_exists, List.find?_isSome]
      obtain ⟨x, hx, hxp, hxg⟩ := hex
      refine ⟨x, by rwa [hrc], ?_⟩
      simp [customerKeyEq, newCustomerRow, hph, hg, hxp, hxg, nullableEq]
    rw [hfind]
    simp [hrc]

/-- Witness for C10: every delivery of `pNull` appends a fresh customers
row (one after the first run, two after the second), while a delivery of
the fully keyed `pGood` onto a state holding a matching `(phone, gstin)`
row adds none. -/
theorem customer_null_key_witness :
    (insertOk emptyDB pNull).1.customers.length = emptyDB.customers.length + 1 ∧
    (insertOk ((insertOk emptyDB pNull).1) pNull).1.customers.length =
      (insertOk emptyDB pNull).1.customers.length + 1 ∧
    (insertOk { emptyDB with
        customers := [⟨5, Option.none, Option.none, Option.some "P", Option.some "G"⟩]
        nextCustomerId := 6 } pGood).1.customers.length =
      ({ emptyDB with
          customers := [⟨5, Option.none, Option.none, Option.some "P", Option.some "G"⟩]
          nextCustomerId := 6 } : DBState).customers.length :=
  ⟨(customer_null_key_inserts_each_time pNull vNull emptyDB rfl).1 (Or.inl rfl),
   (customer_null_key_inserts_each_time pNull vNull _ rfl).1 (Or.inl rfl),
   (customer_null_key_inserts_each_time pGood vGood _ rfl).2 "P" "G" rfl rfl
     ⟨⟨5, Option.none, Option.none, Option.some "P", Option.some "G"⟩,
       List.mem_singleton.mpr rfl, rfl, rfl⟩⟩

/-- C2 (corrected): re-delivering the same payload is a no-op — leaving
exactly one row per natural key in every table, with the single
`customers` row carrying the delivered name/address — *provided* every
conflict key the payload exercises is non-null: customer `phone` and
`gstin` both present, tax/discount titles present, item ids coercible,
addon ids present, and part payments fully keyed.  (With a null key
column the conflict clause never fires and re-delivery duplicates rows —
see the counterexample.) -/
theorem insert_twice_idempotent (p : WebhookPayload) (v : ValidArgs)
    (hv : validatePayload p = .ok v)
    (hph : v.customer.phone ≠ Option.none) (hg : v.customer.gstin ≠ Option.none)
    (htax : ∀ t ∈ v.tax_list, t.title ≠ Option.none)
    (hdis : ∀ d ∈ v.discount_list, d.title ≠ Option.none)
    (hit : ∀ it ∈ v.items, as_int (pyOfUIS it.itemid) ≠ Option.none)
    (had : ∀ it ∈ v.items, ∀ a ∈ it.addon, a.addon_id ≠ Option.none)
    (hpp : ∀ pp ∈ v.part_payments,
      pp.payment_type ≠ Option.none ∧ as_float (pyOfUNum pp.amount) ≠ Option.none) :
    insertOk ((insertOk emptyDB p).1) p = insertOk emptyDB p ∧
    (insertOk emptyDB p).2 = Option.none ∧
    (insertOk emptyDB p).1.customers = [newCustomerRow v 0] ∧
    (insertOk emptyDB p).1.restaurants.Pairwise (fun a b => restKeyEq a b = false) ∧
    (insertOk emptyDB p).1.orders.Pairwise (fun a b => orderKeyEq a b = false) ∧
    (insertOk emptyDB p).1.taxes.Pairwise (fun a b => taxKeyEq a b = false) ∧
    (insertOk emptyDB p).1.discounts.Pairwise (fun a b => discountKeyEq a b = false) ∧
    (insertOk emptyDB p).1.order_items.Pairwise (fun a b => itemKeyEq a b = false) ∧
    (insertOk emptyDB p).1.addons.Pairwise (fun a b => addonKeyEq a b = false) ∧
    (insertOk emptyDB p).1.part_payments.Pairwise (fun a b => ppKeyEq a b = false) := by
  have h1 : insertOk emptyDB p = (applyInsert v emptyDB, Option.none) :=
    insertOk_applyInsert p v emptyDB hv
  obtain ⟨ph0, hph0⟩ := Option.ne_none_iff_exists'.mp hph
  obtain ⟨g0, hg0⟩ := Option.ne_none_iff_exists'.mp hg
  have hselftax : ∀ r ∈ v.tax_list.map (taxRowOf v), taxKeyEq r r = true := by
    intro r hr
    obtain ⟨t, ht, rfl⟩ := List.mem_map.mp hr
    obtain ⟨u, hu⟩ := Option.ne_none_iff_exists'.mp (htax t ht)
    simp [taxKeyEq, taxRowOf, hu, nullableEq_some_self]
  have hselfdis : ∀ r ∈ v.discount_list.map (discountRowOf v), discountKeyEq r r = true := by
    intro r hr
    obtain ⟨d, hd, rfl⟩ := List.mem_map.mp hr
    obtain ⟨u, hu⟩ := Option.ne_none_iff_exists'.mp (hdis d hd)
    simp [discountKeyEq, discountRowOf, hu, nullableEq_some_self]
  have hselfitem : ∀ r ∈ v.items.map (itemRowOf v), itemKeyEq r r = true := by
    intro r hr
    obtain ⟨it, hit2, rfl⟩ := List.mem_map.mp hr
    obtain ⟨iid, hiid⟩ := Option.ne_none_iff_exists'.mp (hit it hit2)
    simp [itemKeyEq, itemRowOf, hiid, nullableEq_some_self]
  have hselfaddon : ∀ r ∈ addonRowsOf v, addonKeyEq r r = true := by
    intro r hr
    unfold addonRowsOf at hr
    obtain ⟨l, hl, hrl⟩ := List.mem_flatten.mp hr
    obtain ⟨it, hit2, rfl⟩ := List.mem_map.mp hl
    obtain ⟨a, ha, rfl⟩ := List.mem_map.mp hrl
    obtain ⟨aid, haid⟩ := Option.ne_none_iff_exists'.mp (had it hit2 a ha)
    obtain ⟨iid, hiid⟩ := Option.ne_none_iff_exists'.mp (hit it hit2)
    simp [addonKeyEq, addonRowOf, haid, hiid, nullableEq_some_self]
  have hselfpp : ∀ r ∈ v.part_payments.map (ppRowOf v), ppKeyEq r r = true := by
    intro r hr
    obtain ⟨pp, hp2, rfl⟩ := List.mem_map.mp hr
    obtain ⟨pt, hpt⟩ := Option.ne_none_iff_exists'.mp (hpp pp hp2).1
    obtain ⟨am, ham⟩ := Option.ne_none_iff_exists'.mp (hpp pp hp2).2
    simp [ppKeyEq, ppRowOf, hpt, ham, nullableEq_some_self]
  have hemp := applyInsert_empty v
  have hfix : applyInsert v (applyInsert v emptyDB) = applyInsert v emptyDB := by
    apply applyInsert_fix
    · rw [hemp]
      simp [restKeyEq, restRowOf]
    · rw [hemp]
      simp [customerKeyEq, newCustomerRow, hph0, hg0, nullableEq_some_self]
    · rw [hemp]
      intro row hrow _
      rw [List.mem_singleton] at hrow
      subst hrow
      exact ⟨rfl, rfl⟩
    · intro cid
      rw [hemp]
      simp [orderKeyEq, orderRowOf]
    · rw [hemp]
      exact upsertFold_saturate taxKeyEq _ hselftax []
    · rw [hemp]
      exact upsertFold_saturate discountKeyEq _ hselfdis []
    · rw [hemp]
      exact upsertFold_saturate itemKeyEq _ hselfitem []
    · rw [hemp]
      exact upsertFold_saturate addonKeyEq _ hselfaddon []
    · rw [hemp]
      exact upsertFold_saturate ppKeyEq _ hselfpp []
  refine ⟨?_, ?_, ?_, ?_, ?_, ?_, ?_, ?_, ?_, ?_⟩
  · rw [h1]
    show insertOk (applyInsert v emptyDB) p = _
    rw [insertOk_applyInsert p v (applyInsert v emptyDB) hv, hfix]
  · rw [h1]
  · rw [h1]
    show (applyInsert v emptyDB).customers = _
    rw [hemp]
  · rw [h1]
    show (applyInsert v emptyDB).restaurants.Pairwise _
    rw [hemp]
    exact List.pairwise_singleton _ _
  · rw [h1]
    show (applyInsert v emptyDB).orders.Pairwise _
    rw [hemp]
    exact List.pairwise_singleton _ _
  · rw [h1]
    show (applyInsert v emptyDB).taxes.Pairwise _
    rw [hemp]
    exact upsertFold_pairwise taxKeyEq _ [] List.Pairwise.nil
  · rw [h1]
    show (applyInsert v emptyDB).discounts.Pairwise _
    rw [hemp]
    exact upsertFold_pairwise discountKeyEq _ [] List.Pairwise.nil
  · rw [h1]
    show (applyInsert v emptyDB).order_items.Pairwise _
    rw [hemp]
    exact upsertFold_pairwise itemKeyEq _ [] List.Pairwise.nil
  · rw [h1]
    show (applyInsert v emptyDB).addons.Pairwise _
    rw [hemp]
    exact upsertFold_pairwise addonKeyEq _ [] List.Pairwise.nil
  · rw [h1]
    show (applyInsert v emptyDB).part_payments.Pairwise _
    rw [hemp]
    exact upsertFold_pairwise ppKeyEq _ [] List.Pairwise.nil

/-- Counterexample for C2: `pNull` is well-formed (it passes validation
and inserts successfully), yet because its customer phone is null the
second delivery of the *same* payload appends a second `customers` row
instead of refreshing the first — the second run is not a no-op and the
table does not hold a single refreshed row. -/
theorem insert_twice_null_key_duplicates_customer :
    (insertOk emptyDB pNull).2 = Option.none ∧
    (insertOk emptyDB pNull).1.customers.length = 1 ∧
    (insertOk ((insertOk emptyDB pNull).1) pNull).1.customers.length = 2 :=
  ⟨rfl, rfl, rfl⟩

/-- Witness for C2: the fully keyed payload `pGood` (one tax, one item
with one addon, one part payment) re-delivered onto its own output is a
no-op, and its customers table is the single delivered row. -/
theorem insert_twice_idempotent_witness :
    insertOk ((insertOk emptyDB pGood).1) pGood = insertOk emptyDB pGood ∧
    (insertOk emptyDB pGood).2 = Option.none ∧
    (insertOk emptyDB pGood).1.customers = [newCustomerRow vGood 0] :=
  ⟨(insert_twice_idempotent pGood vGood rfl (by decide) (by decide) (by decide) (by decide)
      (by decide) (by decide) (by decide)).1,
   (insert_twice_idempotent pGood vGood rfl (by decide) (by decide) (by decide) (by decide)
      (by decide) (by decide) (by decide)).2.1,
   (insert_twice_idempotent pGood vGood rfl (by decide) (by decide) (by decide) (by decide)
      (by decide) (by decide) (by decide)).2.2.1⟩

end Webhook
